import Mathlib

/-!
Verification of the conversational tool-orchestration loop and the itinerary
name-resolution engine of the gtfs-sqljs chatbot.

The development shallowly embeds the relevant source functions:
  * `searchStopsByWords`, `findItinerary`, `findItineraryByName` from the GTFS
    worker module,
  * the `processWithClaude` tool-call loop from the voice-chat hook,
  * `executeTool` from the tool executor service.
External collaborators (the gtfs-sqljs data backend, the routing library, the
model service, the wall clock) are passed in as parameters; in-repository code
is translated directly.  JavaScript strings are modelled as Lean `String`
(lists of characters); JavaScript string primitives used by the source
(`toLowerCase`, `trim`, `split`, `includes`, `String(...)`, `Number(...)`,
NFD-based accent stripping) are given executable character-list models below.
-/

/-! ## JavaScript string primitives -/

/-- Lower-casing of one character: ASCII plus the precomposed accented Latin
letters that occur in GTFS feeds (model of JS `toLowerCase`). -/
def lowerChar (c : Char) : Char :=
  if c = 'À' then 'à' else if c = 'Â' then 'â' else if c = 'Ä' then 'ä'
  else if c = 'É' then 'é' else if c = 'È' then 'è' else if c = 'Ê' then 'ê'
  else if c = 'Ë' then 'ë' else if c = 'Î' then 'î' else if c = 'Ï' then 'ï'
  else if c = 'Ô' then 'ô' else if c = 'Ö' then 'ö' else if c = 'Ù' then 'ù'
  else if c = 'Û' then 'û' else if c = 'Ü' then 'ü' else if c = 'Ç' then 'ç'
  else c.toLower

/-- Model of JS `s.toLowerCase()`. -/
def jsToLowerCase (s : String) : String := ⟨s.data.map lowerChar⟩

/-- Base letter of a precomposed accented character (model of
`normalize('NFD').replace(/[̀-ͯ]/g, '')` on lower-case input). -/
def deaccentChar (c : Char) : Char :=
  if c = 'à' ∨ c = 'â' ∨ c = 'ä' ∨ c = 'á' ∨ c = 'ã' then 'a'
  else if c = 'é' ∨ c = 'è' ∨ c = 'ê' ∨ c = 'ë' then 'e'
  else if c = 'î' ∨ c = 'ï' ∨ c = 'í' then 'i'
  else if c = 'ô' ∨ c = 'ö' ∨ c = 'ó' ∨ c = 'õ' then 'o'
  else if c = 'ù' ∨ c = 'û' ∨ c = 'ü' ∨ c = 'ú' then 'u'
  else if c = 'ç' then 'c'
  else c

/-- Model of accent removal via NFD normalisation. -/
def stripAccents (s : String) : String := ⟨s.data.map deaccentChar⟩

/-- Model of JS `s.trim()`: drop whitespace at both ends. -/
def jsTrim (s : String) : String :=
  ⟨((s.data.dropWhile Char.isWhitespace).reverse.dropWhile Char.isWhitespace).reverse⟩

/-- One step of splitting a character list at whitespace runs. -/
def wsRunStep (c : Char) (acc : List (List Char)) : List (List Char) :=
  if c.isWhitespace then [] :: acc
  else
    match acc with
    | [] => [[c]]
    | r :: rs => (c :: r) :: rs

/-- Model of JS `s.split(/\s+/)` up to empty chunks (the caller filters out
words shorter than 2 characters, so empty chunks are irrelevant). -/
def splitWhitespace (s : String) : List String :=
  (s.data.foldr wsRunStep []).map (fun cs => ⟨cs⟩)

/-- One step of splitting a character list at a separator character. -/
def sepStep (sep : Char) (c : Char) (acc : List (List Char)) : List (List Char) :=
  match acc with
  | [] => if c = sep then [[], []] else [[c]]
  | r :: rs => if c = sep then [] :: r :: rs else (c :: r) :: rs

/-- Model of JS `s.split(sep)` for a single-character separator (keeps empty
chunks, as JS does). -/
def splitOnCharJs (sep : Char) (s : String) : List String :=
  (s.data.foldr (sepStep sep) [[]]).map (fun cs => ⟨cs⟩)

/-- Decimal digit value of a character, if any. -/
def charDigit? (c : Char) : Option Nat :=
  if '0' ≤ c ∧ c ≤ '9' then some (c.toNat - '0'.toNat) else none

/-- Numeric value of a digit string.  This models JS `Number(...)` on the
digit-only strings produced by the validated inputs; non-numeric strings
(which JS turns into `NaN`) are modelled as `none`. -/
def natFromDigits (cs : List Char) : Option Nat :=
  if cs.isEmpty then none
  else cs.foldl (fun a c =>
    match a, charDigit? c with
    | some x, some d => some (x * 10 + d)
    | _, _ => none) (some 0)

/-- Model of `Number(part) || 0` on a time component string. -/
def timePartToNat (s : String) : Nat := (natFromDigits s.data).getD 0

/-- Lexicographic comparison of character lists (model of the comparator
order induced by `localeCompare` on code points). -/
def charListLe : List Char → List Char → Bool
  | [], _ => true
  | _ :: _, [] => false
  | a :: as, b :: bs => if a = b then charListLe as bs else decide (a < b)

/-- String comparison: `strLe a b` holds when `a` sorts no later than `b`. -/
def strLe (a b : String) : Bool := charListLe a.data b.data

/-- Does `l` start with `pat`?  (Character-list model of JS `startsWith`.) -/
def leadsWith : List Char → List Char → Bool
  | _, [] => true
  | [], _ :: _ => false
  | a :: as, b :: bs => a = b && leadsWith as bs

/-- Does `l` contain `pat` as a contiguous run?  (Model of JS `includes`.) -/
def containsSeq : List Char → List Char → Bool
  | [], pat => pat.isEmpty
  | l@(_ :: rest), pat => leadsWith l pat || containsSeq rest pat

/-- Pad a natural number to two digits (model of `String(n).padStart(2,'0')`). -/
def pad2 (n : Nat) : String :=
  if n < 10 then "0" ++ toString n else toString n

/-- Is the character a decimal digit? -/
def isDigitChar (c : Char) : Bool := decide ('0' ≤ c) && decide (c ≤ '9')

/-! ## Stop search (`searchStopsByWords` in the GTFS worker) -/

/-- A stop as returned by the gtfs-sqljs backend; only the fields read by the
embedded functions are carried (`stop_name` is optional in the feed). -/
structure Stop where
  stop_id : String
  stop_name : Option String
deriving DecidableEq, Repr

/-- A stop enriched with a match score and the matched words
(`StopWithScore` in the worker source). -/
structure StopWithScore where
  stop_id : String
  stop_name : Option String
  matchScore : Nat
  matchedWords : List String
deriving DecidableEq, Repr

/-- The normalised query words: lower-case, split on whitespace, drop words
shorter than two characters, strip accents. -/
def queryWords (query : String) : List String :=
  ((splitWhitespace (jsToLowerCase query)).filter (fun w => 2 ≤ w.data.length)).map stripAccents

/-- The word-merge accumulator: a JS `Map` from `stop_id` to scored stop,
modelled as an insertion-ordered association list. -/
abbrev ScoreMap := List (String × StopWithScore)

/-- First entry stored under a key. -/
def findEntry : ScoreMap → String → Option StopWithScore
  | [], _ => none
  | p :: rest, id => if p.fst = id then some p.snd else findEntry rest id

/-- Record one occurrence of stop `st` matching word `w`: bump the score of an
existing entry in place (the matched-word list is deduplicated, the score is
not), or append a fresh entry with score 1. -/
def insertStop (w : String) (st : Stop) : ScoreMap → ScoreMap
  | [] => [(st.stop_id, ⟨st.stop_id, st.stop_name, 1, [w]⟩)]
  | p :: rest =>
    if p.fst = st.stop_id then
      (p.fst,
        { p.snd with
          matchScore := p.snd.matchScore + 1,
          matchedWords :=
            if w ∈ p.snd.matchedWords then p.snd.matchedWords
            else p.snd.matchedWords ++ [w] }) :: rest
    else p :: insertStop w st rest

/-- Stable insertion of `x` into a sorted list: `x` goes after every element
`y` with `le y x` (this models JS `Array.prototype.sort`, which is a stable
sort — for a transitive and total comparator the stable sorted order is
unique, so any stable sort gives the same list). -/
def insertSorted (le : α → α → Bool) (x : α) : List α → List α
  | [] => [x]
  | y :: ys => if le y x then y :: insertSorted le x ys else x :: y :: ys

/-- Stable sort by repeated insertion, processing the input left to right. -/
def sortStable (le : α → α → Bool) (l : List α) : List α :=
  l.foldl (fun acc x => insertSorted le x acc) []

theorem mem_insertSorted (le : α → α → Bool) (x a : α) :
    ∀ l, a ∈ insertSorted le x l ↔ a = x ∨ a ∈ l := by
  intro l
  induction l with
  | nil => simp [insertSorted]
  | cons y ys ih =>
    simp only [insertSorted]
    by_cases h : le y x = true
    · rw [if_pos h]
      simp [ih]
      tauto
    · rw [if_neg h]
      simp

theorem mem_sortStable (le : α → α → Bool) (l : List α) (a : α) :
    a ∈ sortStable le l ↔ a ∈ l := by
  have main : ∀ (l acc : List α),
      (a ∈ l.foldl (fun acc x => insertSorted le x acc) acc ↔ a ∈ l ∨ a ∈ acc) := by
    intro l
    induction l with
    | nil => intro acc; simp
    | cons x xs ih =>
      intro acc
      simp only [List.foldl_cons, ih, mem_insertSorted]
      simp [List.mem_cons]
      tauto
  have := main l []
  simp only [sortStable]
  simp [this]

theorem pairwise_insertSorted (le : α → α → Bool)
    (htrans : ∀ a b c, le a b = true → le b c = true → le a c = true)
    (htotal : ∀ a b, (le a b || le b a) = true) (x : α) :
    ∀ l, l.Pairwise (fun a b => le a b = true) →
      (insertSorted le x l).Pairwise (fun a b => le a b = true) := by
  intro l
  induction l with
  | nil => intro _; simp [insertSorted]
  | cons y ys ih =>
    intro hp
    rcases List.pairwise_cons.mp hp with ⟨hy, hys⟩
    simp only [insertSorted]
    by_cases h : le y x = true
    · rw [if_pos h]
      refine List.pairwise_cons.mpr ⟨?_, ih hys⟩
      intro b hb
      rcases (mem_insertSorted le x b ys).mp hb with hbx | hbm
      · subst hbx; exact h
      · exact hy b hbm
    · have hxy : le x y = true := by
        rcases Bool.or_eq_true_iff.mp (htotal y x) with h1 | h1
        · exact absurd h1 h
        · exact h1
      rw [if_neg h]
      refine List.pairwise_cons.mpr ⟨?_, hp⟩
      intro b hb
      rcases List.mem_cons.mp hb with hby | hbm
      · subst hby; exact hxy
      · exact htrans x y b hxy (hy b hbm)

theorem pairwise_sortStable (le : α → α → Bool)
    (htrans : ∀ a b c, le a b = true → le b c = true → le a c = true)
    (htotal : ∀ a b, (le a b || le b a) = true) (l : List α) :
    (sortStable le l).Pairwise (fun a b => le a b = true) := by
  have main : ∀ (l acc : List α), acc.Pairwise (fun a b => le a b = true) →
      (l.foldl (fun acc x => insertSorted le x acc) acc).Pairwise (fun a b => le a b = true) := by
    intro l
    induction l with
    | nil => intro acc h; simpa using h
    | cons x xs ih =>
      intro acc h
      exact ih _ (pairwise_insertSorted le htrans htotal x acc h)
  exact main l [] (by simp)

/-- Sort comparator of the search results: match score descending, then stop
name ascending (absent names compare as the empty string). -/
def scoreLE (a b : StopWithScore) : Bool :=
  if a.matchScore = b.matchScore then strLe (a.stop_name.getD "") (b.stop_name.getD "")
  else decide (b.matchScore < a.matchScore)

/-- The function `searchStopsByWords` from the GTFS worker.  `getStopsByName` is the
backend lookup `getStops {name, limit}` (an external collaborator); each word
is looked up with the hard-coded internal limit 100. -/
def searchStopsByWords (getStopsByName : String → Nat → List Stop)
    (query : String) (limit : Nat) : List StopWithScore :=
  let words := queryWords query
  if words.isEmpty then []
  else
    let m := words.foldl (fun acc w => (getStopsByName w 100).foldl (fun a st => insertStop w st a) acc) []
    (sortStable scoreLE (m.map Prod.snd)).take limit

/-! ### Score accounting for `searchStopsByWords` -/

/-- Score recorded for a stop id in the accumulator (0 when absent). -/
def scoreOf (m : ScoreMap) (id : String) : Nat :=
  match findEntry m id with
  | some s => s.matchScore
  | none => 0

/-- Number of occurrences of stop id `id` in the backend lookup of word `w`
(the per-word internal limit is 100, as in the source). -/
def wordHits (g : String → Nat → List Stop) (id w : String) : Nat :=
  (g w 100).countP (fun st => st.stop_id == id)

/-- Every key of the accumulator stores a stop with that id. -/
def keyConsistent (m : ScoreMap) : Prop := ∀ p ∈ m, (Prod.snd p).stop_id = p.fst

/-- The accumulator holds at most one entry per stop id. -/
def keysNodup (m : ScoreMap) : Prop := (m.map Prod.fst).Nodup

theorem scoreOf_insertStop (w : String) (st : Stop) (m : ScoreMap) (id : String) :
    scoreOf (insertStop w st m) id = scoreOf m id + (if st.stop_id = id then 1 else 0) := by
  induction m with
  | nil =>
    simp only [insertStop, scoreOf, findEntry]
    by_cases h : st.stop_id = id <;> simp [h]
  | cons p rest ih =>
    simp only [insertStop]
    by_cases hp : p.fst = st.stop_id
    · simp only [hp, if_pos rfl]
      by_cases hid : st.stop_id = id
      · simp [scoreOf, findEntry, hp, hid]
      · have hpid : ¬ (p.fst = id) := by rw [hp]; exact hid
        simp [scoreOf, findEntry, hpid, hid, hp]
    · simp only [if_neg hp]
      by_cases hid : p.fst = id
      · have hst : ¬ (st.stop_id = id) := by
          intro h
          exact hp (hid.trans h.symm)
        simp [scoreOf, findEntry, hid, hst]
      · simp only [scoreOf, findEntry, if_neg hid]
        exact ih

theorem scoreOf_foldl_stops (w : String) (stops : List Stop) (m : ScoreMap) (id : String) :
    scoreOf (stops.foldl (fun a st => insertStop w st a) m) id
      = scoreOf m id + stops.countP (fun st => st.stop_id == id) := by
  induction stops generalizing m with
  | nil => simp
  | cons st rest ih =>
    simp only [List.foldl_cons, ih, scoreOf_insertStop, List.countP_cons]
    by_cases h : st.stop_id = id
    · simp [h]
      omega
    · simp [h]

theorem scoreOf_foldl_words (g : String → Nat → List Stop) (ws : List String)
    (m : ScoreMap) (id : String) :
    scoreOf (ws.foldl (fun acc w => (g w 100).foldl (fun a st => insertStop w st a) acc) m) id
      = scoreOf m id + (ws.map (wordHits g id)).sum := by
  induction ws generalizing m with
  | nil => simp
  | cons w rest ih =>
    simp only [List.foldl_cons, ih, scoreOf_foldl_stops, List.map_cons, List.sum_cons, wordHits]
    omega

theorem keyConsistent_insertStop (w : String) (st : Stop) (m : ScoreMap)
    (h : keyConsistent m) : keyConsistent (insertStop w st m) := by
  induction m with
  | nil =>
    intro p hp
    simp only [insertStop, List.mem_singleton] at hp
    subst hp; rfl
  | cons q rest ih =>
    have hq := h q (List.mem_cons_self q rest)
    have hrest : keyConsistent rest := fun p hp => h p (List.mem_cons_of_mem q hp)
    intro p hp
    simp only [insertStop] at hp
    by_cases hk : q.fst = st.stop_id
    · rw [if_pos hk] at hp
      rcases List.mem_cons.mp hp with h1 | h2
      · subst h1; exact hq
      · exact h p (List.mem_cons_of_mem q h2)
    · rw [if_neg hk] at hp
      rcases List.mem_cons.mp hp with h1 | h2
      · subst h1; exact hq
      · exact ih hrest p h2

theorem keys_insertStop (w : String) (st : Stop) (m : ScoreMap) :
    (insertStop w st m).map Prod.fst =
      (if st.stop_id ∈ m.map Prod.fst then m.map Prod.fst
       else m.map Prod.fst ++ [st.stop_id]) := by
  induction m with
  | nil => simp [insertStop]
  | cons q rest ih =>
    simp only [insertStop]
    by_cases hk : q.fst = st.stop_id
    · simp [hk]
    · have hne : ¬ st.stop_id = q.fst := fun h => hk h.symm
      by_cases hmem : st.stop_id ∈ rest.map Prod.fst
      · simp [hk, hmem, hne, ih]
      · simp [hk, hmem, hne, ih]

theorem keysNodup_insertStop (w : String) (st : Stop) (m : ScoreMap)
    (h : keysNodup m) : keysNodup (insertStop w st m) := by
  unfold keysNodup at *
  rw [keys_insertStop]
  by_cases hmem : st.stop_id ∈ m.map Prod.fst
  · simpa [hmem]
  · simp only [hmem, if_neg, ite_false]
    simp [List.nodup_append, h, hmem]

theorem keyConsistent_foldl_stops (w : String) (stops : List Stop) (m : ScoreMap)
    (h : keyConsistent m) :
    keyConsistent (stops.foldl (fun a st => insertStop w st a) m) := by
  induction stops generalizing m with
  | nil => exact h
  | cons st rest ih => exact ih _ (keyConsistent_insertStop w st m h)

theorem keysNodup_foldl_stops (w : String) (stops : List Stop) (m : ScoreMap)
    (h : keysNodup m) :
    keysNodup (stops.foldl (fun a st => insertStop w st a) m) := by
  induction stops generalizing m with
  | nil => exact h
  | cons st rest ih => exact ih _ (keysNodup_insertStop w st m h)

theorem keyConsistent_foldl_words (g : String → Nat → List Stop) (ws : List String)
    (m : ScoreMap) (h : keyConsistent m) :
    keyConsistent (ws.foldl (fun acc w => (g w 100).foldl (fun a st => insertStop w st a) acc) m) := by
  induction ws generalizing m with
  | nil => exact h
  | cons w rest ih => exact ih _ (keyConsistent_foldl_stops w _ m h)

theorem keysNodup_foldl_words (g : String → Nat → List Stop) (ws : List String)
    (m : ScoreMap) (h : keysNodup m) :
    keysNodup (ws.foldl (fun acc w => (g w 100).foldl (fun a st => insertStop w st a) acc) m) := by
  induction ws generalizing m with
  | nil => exact h
  | cons w rest ih => exact ih _ (keysNodup_foldl_stops w _ m h)

theorem findEntry_some_mem_keys (m : ScoreMap) (id : String) (v : StopWithScore)
    (h : findEntry m id = some v) : id ∈ m.map Prod.fst := by
  induction m with
  | nil => simp [findEntry] at h
  | cons p rest ih =>
    simp only [findEntry] at h
    by_cases hk : p.fst = id
    · simp [hk]
    · rw [if_neg hk] at h
      simp [ih h]

theorem findEntry_of_mem_values (m : ScoreMap) (s : StopWithScore)
    (hkc : keyConsistent m) (hnd : keysNodup m)
    (h : s ∈ m.map Prod.snd) : findEntry m s.stop_id = some s := by
  induction m with
  | nil => simp at h
  | cons p rest ih =>
    have hrestkc : keyConsistent rest := fun q hq => hkc q (List.mem_cons_of_mem p hq)
    have hrestnd : keysNodup rest := (List.nodup_cons.mp hnd).2
    simp only [List.map_cons, List.mem_cons] at h
    rcases h with h1 | h2
    · subst h1
      have hkey : p.snd.stop_id = p.fst := hkc p (List.mem_cons_self p rest)
      simp [findEntry, hkey]
    · have hfind := ih hrestkc hrestnd h2
      have hmem : s.stop_id ∈ rest.map Prod.fst := findEntry_some_mem_keys rest _ _ hfind
      have hne : ¬ p.fst = s.stop_id := by
        intro hcontra
        exact (List.nodup_cons.mp hnd).1 (hcontra ▸ hmem)
      simp [findEntry, hne, hfind]

theorem charListLe_trans (a : List Char) : ∀ b c, charListLe a b = true →
    charListLe b c = true → charListLe a c = true := by
  induction a with
  | nil => intro b c _ _; rfl
  | cons x as ih =>
    intro b c hab hbc
    cases b with
    | nil => simp [charListLe] at hab
    | cons y bs =>
      cases c with
      | nil => simp [charListLe] at hbc
      | cons z cs =>
        simp only [charListLe] at hab hbc ⊢
        by_cases hxy : x = y
        · subst hxy
          rw [if_pos rfl] at hab
          by_cases hyz : x = z
          · subst hyz
            rw [if_pos rfl] at hbc ⊢
            exact ih bs cs hab hbc
          · rw [if_neg hyz] at hbc ⊢
            exact hbc
        · rw [if_neg hxy] at hab
          have hlt : x < y := of_decide_eq_true hab
          by_cases hyz : y = z
          · subst hyz
            rw [if_neg hxy]
            exact hab
          · rw [if_neg hyz] at hbc
            have hlt2 : y < z := of_decide_eq_true hbc
            have hxz : x < z := lt_trans hlt hlt2
            rw [if_neg (ne_of_lt hxz)]
            exact decide_eq_true hxz

theorem charListLe_total (a : List Char) : ∀ b,
    (charListLe a b || charListLe b a) = true := by
  induction a with
  | nil => intro b; simp [charListLe]
  | cons x as ih =>
    intro b
    cases b with
    | nil => simp [charListLe]
    | cons y bs =>
      by_cases hxy : x = y
      · subst hxy
        have := ih bs
        simp only [charListLe, if_pos rfl]
        exact this
      · have hyx : ¬ y = x := fun h => hxy h.symm
        rcases lt_trichotomy x y with h | h | h
        · have h1 : charListLe (x :: as) (y :: bs) = true := by
            simp [charListLe, hxy, h]
          simp [h1]
        · exact absurd h hxy
        · have h1 : charListLe (y :: bs) (x :: as) = true := by
            simp [charListLe, hyx, h]
          simp [h1]

theorem strLe_trans (a b c : String) (hab : strLe a b = true)
    (hbc : strLe b c = true) : strLe a c = true :=
  charListLe_trans a.data b.data c.data hab hbc

theorem strLe_total (a b : String) : (strLe a b || strLe b a) = true :=
  charListLe_total a.data b.data

theorem scoreLE_trans (a b c : StopWithScore) (hab : scoreLE a b = true)
    (hbc : scoreLE b c = true) : scoreLE a c = true := by
  unfold scoreLE at *
  by_cases h1 : a.matchScore = b.matchScore
  · rw [if_pos h1] at hab
    by_cases h2 : b.matchScore = c.matchScore
    · rw [if_pos h2] at hbc
      rw [if_pos (h1.trans h2)]
      exact strLe_trans _ _ _ hab hbc
    · rw [if_neg h2] at hbc
      have hlt : c.matchScore < b.matchScore := of_decide_eq_true hbc
      have h3 : ¬ a.matchScore = c.matchScore := by omega
      rw [if_neg h3]
      exact decide_eq_true (by omega)
  · rw [if_neg h1] at hab
    have hlt : b.matchScore < a.matchScore := of_decide_eq_true hab
    by_cases h2 : b.matchScore = c.matchScore
    · have h3 : ¬ a.matchScore = c.matchScore := by omega
      rw [if_neg h3]
      exact decide_eq_true (by omega)
    · rw [if_neg h2] at hbc
      have hlt2 : c.matchScore < b.matchScore := of_decide_eq_true hbc
      have h3 : ¬ a.matchScore = c.matchScore := by omega
      rw [if_neg h3]
      exact decide_eq_true (by omega)

theorem scoreLE_total (a b : StopWithScore) : (scoreLE a b || scoreLE b a) = true := by
  unfold scoreLE
  by_cases h : a.matchScore = b.matchScore
  · have h2 : b.matchScore = a.matchScore := h.symm
    rw [if_pos h, if_pos h2]
    exact strLe_total _ _
  · have h2 : ¬ b.matchScore = a.matchScore := fun hh => h hh.symm
    rw [if_neg h, if_neg h2]
    rcases Nat.lt_or_ge a.matchScore b.matchScore with hlt | hge
    · simp [hlt]
    · have : b.matchScore < a.matchScore := by omega
      simp [this]

theorem searchStops_mem_values (g : String → Nat → List Stop) (q : String) (limit : Nat)
    (s : StopWithScore) (h : s ∈ searchStopsByWords g q limit) :
    s ∈ ((queryWords q).foldl
          (fun acc w => (g w 100).foldl (fun a st => insertStop w st a) acc) []).map Prod.snd := by
  simp only [searchStopsByWords] at h
  by_cases hw : (queryWords q).isEmpty = true
  · simp [hw] at h
  · simp only [hw, ite_false, if_neg] at h
    have h1 := List.mem_of_mem_take h
    exact (mem_sortStable scoreLE _ s).mp h1

theorem searchStops_matchScore_eq (g : String → Nat → List Stop) (q : String) (limit : Nat)
    (s : StopWithScore) (h : s ∈ searchStopsByWords g q limit) :
    s.matchScore = ((queryWords q).map (wordHits g s.stop_id)).sum := by
  have hmem := searchStops_mem_values g q limit s h
  have hkc : keyConsistent ([] : ScoreMap) := by
    intro p hp
    exact absurd hp (List.not_mem_nil p)
  have hnd : keysNodup ([] : ScoreMap) := List.nodup_nil
  have hfind := findEntry_of_mem_values _ s
    (keyConsistent_foldl_words g (queryWords q) [] hkc)
    (keysNodup_foldl_words g (queryWords q) [] hnd) hmem
  have hscore := scoreOf_foldl_words g (queryWords q) [] s.stop_id
  unfold scoreOf at hscore
  rw [hfind] at hscore
  simpa [findEntry] using hscore

theorem searchStops_pairwise_scoreLE (g : String → Nat → List Stop) (q : String) (limit : Nat) :
    (searchStopsByWords g q limit).Pairwise (fun a b => scoreLE a b = true) := by
  simp only [searchStopsByWords]
  by_cases hw : (queryWords q).isEmpty = true
  · simp [hw]
  · simp only [hw, ite_false, if_neg]
    have hs := pairwise_sortStable scoreLE scoreLE_trans scoreLE_total
      (((queryWords q).foldl
        (fun acc w => (g w 100).foldl (fun a st => insertStop w st a) acc) []).map Prod.snd)
    exact hs.sublist (List.take_sublist limit _)

theorem searchStops_length_le (g : String → Nat → List Stop) (q : String) (limit : Nat) :
    (searchStopsByWords g q limit).length ≤ limit := by
  simp only [searchStopsByWords]
  by_cases hw : (queryWords q).isEmpty = true
  · simp [hw]
  · simp only [hw, ite_false, if_neg]
    simp

/-! ## Itinerary engine (`findItinerary`) and orchestrator (`findItineraryByName`) -/

/-- One leg of a scheduled journey as produced by the external routing library
(`ScheduledLeg` of gtfs-sqljs-itinerary); times are seconds since midnight and
may exceed 86399 for after-midnight arrivals. -/
structure ScheduledLeg where
  startStop : String
  endStop : String
  tripId : Option String
  routeShortName : Option String
  departureTime : Nat
  arrivalTime : Nat
deriving DecidableEq, Repr

/-- A scheduled journey as produced by the external routing library. -/
structure ScheduledJourney where
  departureTime : Nat
  arrivalTime : Nat
  totalDuration : Nat
  legs : List ScheduledLeg
deriving DecidableEq, Repr

/-- A trip row of the backend; only the fields read by the embedding. -/
structure Trip where
  trip_id : String
  trip_headsign : Option String
deriving DecidableEq, Repr

/-- The external collaborators used by the itinerary functions, bundled:
the gtfs-sqljs lookups and the gtfs-sqljs-itinerary routing primitives.
`P` is the (opaque) type of path segments.  `findAllPaths` takes the date the
graph was built for, then start, end, maxPaths, maxTransfers;
`findScheduledTrips` takes a path, the date, the departure time in seconds,
the minimum transfer duration and the requested journey count. -/
structure Backend (P : Type) where
  getStopsByName : String → Nat → List Stop
  getStopsById : List String → Nat → List Stop
  getTripsById : List String → Nat → List Trip
  findAllPaths : String → String → String → Nat → Nat → List (List P)
  findScheduledTrips : List P → String → Nat → Nat → Nat → List ScheduledJourney

/-- Options of `findItinerary` (all optional in the source). -/
structure ItineraryOptions where
  maxPaths : Option Nat
  maxTransfers : Option Nat
  minTransferDuration : Option Nat
  journeysCount : Option Nat
deriving DecidableEq, Repr

/-- Result shape of `findItinerary`. -/
structure ItineraryResult (P : Type) where
  journeys : List ScheduledJourney
  paths : List (List P)

/-- Model of `timeParts[0]*3600 + timeParts[1]*60 + (timeParts[2] || 0)` after
`departureTime.split(':').map(Number)`. -/
def timeToSeconds (t : String) : Nat :=
  let parts := (splitOnCharJs ':' t).map timePartToNat
  parts.getD 0 0 * 3600 + parts.getD 1 0 * 60 + parts.getD 2 0

/-- The function `findItinerary` from the GTFS worker: enumerate paths, bind each to
scheduled trips, keep the paths that produced journeys, sort all journeys by
departure time and truncate. -/
def findItinerary {P : Type} (B : Backend P) (startStopId endStopId date departureTime : String)
    (options : ItineraryOptions) : ItineraryResult P :=
  let maxPaths := options.maxPaths.getD 2
  let maxTransfers := options.maxTransfers.getD 3
  let minTransferDuration := options.minTransferDuration.getD 300
  let journeysCount := options.journeysCount.getD 2
  let paths := B.findAllPaths date startStopId endStopId maxPaths maxTransfers
  if paths.isEmpty then ⟨[], []⟩
  else
    let departureSeconds := timeToSeconds departureTime
    let collected := paths.foldl
      (fun (acc : List ScheduledJourney × List (List P)) path =>
        let js := B.findScheduledTrips path date departureSeconds minTransferDuration journeysCount
        if js.isEmpty then acc else (acc.fst ++ js, acc.snd ++ [path]))
      ([], [])
    ⟨(sortStable (fun a b => decide (a.departureTime ≤ b.departureTime)) collected.fst).take journeysCount,
      collected.snd⟩

/-- Error discriminator of `findItineraryByName` failures. -/
inductive ErrorType where
  | START_STOP_NOT_FOUND
  | END_STOP_NOT_FOUND
  | BOTH_STOPS_NOT_FOUND
  | AMBIGUOUS_START_STOP
  | AMBIGUOUS_END_STOP
  | NO_ITINERARY_FOUND
  | SAME_START_AND_END
  | INVALID_DATE_TIME
deriving DecidableEq, Repr

/-- A stop reference with resolved name. -/
structure ResolvedStop where
  stop_id : String
  stop_name : String
deriving DecidableEq, Repr

/-- A resolved stop together with its match data. -/
structure ResolvedStopWithScore where
  stop_id : String
  stop_name : String
  matchScore : Nat
  matchedWords : List String
deriving DecidableEq, Repr

/-- A candidate offered in an ambiguity error. -/
structure CandidateInfo where
  stop_id : String
  stop_name : String
  matchScore : Nat
deriving DecidableEq, Repr

/-- The route information attached to a resolved leg (the source fills
`route_id` with the empty string because the library does not provide it). -/
structure ResolvedRoute where
  route_id : String
  route_short_name : String
deriving DecidableEq, Repr

/-- A leg of a resolved journey, with human-readable fields. -/
structure ResolvedLeg where
  fromStop : ResolvedStop
  toStop : ResolvedStop
  route : Option ResolvedRoute
  tripHeadsign : Option String
  departureTime : String
  arrivalTime : String
  isTransfer : Bool
deriving DecidableEq, Repr

/-- A journey of the success payload (`totalDuration` is in minutes). -/
structure ResolvedJourney where
  departureTime : String
  arrivalTime : String
  totalDuration : Nat
  transfers : Nat
  legs : List ResolvedLeg
deriving DecidableEq, Repr

/-- The error payloads of `findItineraryByName`, one constructor per
`errorType`, carrying the context fields the source attaches. -/
inductive ItinError where
  | invalidDate (message providedDate expectedDateFormat : String)
  | invalidTime (message providedTime expectedTimeFormat : String)
  | bothStopsNotFound (message startQuery endQuery suggestion : String)
  | startStopNotFound (message searchedQuery suggestion : String)
  | endStopNotFound (message searchedQuery suggestion : String)
  | ambiguousStart (message searchedQuery : String) (candidates : List CandidateInfo)
      (suggestion : String)
  | ambiguousEnd (message searchedQuery : String) (candidates : List CandidateInfo)
      (suggestion : String)
  | sameStartAndEnd (message : String) (stop : ResolvedStop)
  | noItineraryFound (message : String) (startStop endStop : ResolvedStop)
      (date departureTime : String) (possibleReasons : List String)
deriving DecidableEq, Repr

/-- The `errorType` field of an error payload. -/
def ItinError.errorType : ItinError → ErrorType
  | .invalidDate .. => .INVALID_DATE_TIME
  | .invalidTime .. => .INVALID_DATE_TIME
  | .bothStopsNotFound .. => .BOTH_STOPS_NOT_FOUND
  | .startStopNotFound .. => .START_STOP_NOT_FOUND
  | .endStopNotFound .. => .END_STOP_NOT_FOUND
  | .ambiguousStart .. => .AMBIGUOUS_START_STOP
  | .ambiguousEnd .. => .AMBIGUOUS_END_STOP
  | .sameStartAndEnd .. => .SAME_START_AND_END
  | .noItineraryFound .. => .NO_ITINERARY_FOUND

/-- Result of `findItineraryByName`: a success payload or an error payload. -/
inductive FindItineraryByNameResult where
  | success (startStop endStop : ResolvedStopWithScore) (journeys : List ResolvedJourney)
      (alternativeStartStops alternativeEndStops : Option (List ResolvedStopWithScore))
  | error (e : ItinError)
deriving DecidableEq, Repr

/-- The `errorType` of a result, `none` on success. -/
def resultErrorType : FindItineraryByNameResult → Option ErrorType
  | .success .. => none
  | .error e => some e.errorType

/-- Date validation `/^\d{8}$/` — exactly eight digits. -/
def dateShapeOk (s : String) : Bool :=
  s.data.length == 8 && s.data.all isDigitChar

/-- Time validation `/^\d{2}:\d{2}(:\d{2})?$/`. -/
def timeShapeOk (s : String) : Bool :=
  match s.data with
  | [a, b, c, d, e] =>
    isDigitChar a && isDigitChar b && c == ':' && isDigitChar d && isDigitChar e
  | [a, b, c, d, e, f, g, h] =>
    isDigitChar a && isDigitChar b && c == ':' && isDigitChar d && isDigitChar e &&
      f == ':' && isDigitChar g && isDigitChar h
  | _ => false

/-- Seconds since midnight rendered as `HH:MM:SS`
(`secondsToTimeString` in the worker source). -/
def secondsToTimeString (seconds : Nat) : String :=
  pad2 (seconds / 3600) ++ ":" ++ pad2 (seconds % 3600 / 60) ++ ":" ++ pad2 (seconds % 60)

/-- Model of `s.stop_name?.toLowerCase().trim() === query.toLowerCase().trim()`. -/
def exactNameMatch (s : StopWithScore) (query : String) : Bool :=
  match s.stop_name with
  | none => false
  | some n => jsTrim (jsToLowerCase n) == jsTrim (jsToLowerCase query)

/-- JS `a || b` on an optional string (`undefined` and `""` both fall back). -/
def jsOr (a : Option String) (b : String) : String :=
  match a with
  | some s => if s = "" then b else s
  | none => b

/-- A possibly-undefined string in a JS template literal. -/
def jsShow (o : Option String) : String := o.getD "undefined"

/-- Add to a JS `Set` modelled as an insertion-ordered duplicate-free list. -/
def addUnique (l : List String) (x : String) : List String :=
  if x ∈ l then l else l ++ [x]

/-- All stop ids referenced by any leg of any journey, in insertion order. -/
def collectStopIds (js : List ScheduledJourney) : List String :=
  js.foldl (fun acc j =>
    j.legs.foldl (fun a leg => addUnique (addUnique a leg.startStop) leg.endStop) acc) []

/-- All (truthy) trip ids referenced by any leg of any journey. -/
def collectTripIds (js : List ScheduledJourney) : List String :=
  js.foldl (fun acc j =>
    j.legs.foldl (fun a leg =>
      match leg.tripId with
      | some t => if t = "" then a else addUnique a t
      | none => a) acc) []

/-- Model of `Map.get` after filling a JS `Map` from a list (the last entry with a
given key wins, as `set` overwrites). -/
def lookupLastStop (l : List Stop) (id : String) : Option Stop :=
  l.foldl (fun acc st => if st.stop_id = id then some st else acc) none

/-- As `lookupLastStop`, for trips. -/
def lookupLastTrip (l : List Trip) (id : String) : Option Trip :=
  l.foldl (fun acc t => if t.trip_id = id then some t else acc) none

/-- The batch stop lookup issued by the success path
(`getStops {stopId: [...], limit: size + 10}`). -/
def itineraryStopData {P : Type} (B : Backend P) (js : List ScheduledJourney) : List Stop :=
  B.getStopsById (collectStopIds js) ((collectStopIds js).length + 10)

/-- The batch trip lookup issued by the success path (skipped when no trip
ids were collected). -/
def itineraryTripData {P : Type} (B : Backend P) (js : List ScheduledJourney) : List Trip :=
  let ids := collectTripIds js
  if ids.isEmpty then [] else B.getTripsById ids (ids.length + 10)

/-- Rebuild one leg with human-readable names; unresolvable stop references
fall back to the raw id (`fromStop?.stop_name || leg.startStop`). -/
def resolveLeg (stopsData : List Stop) (tripsData : List Trip) (leg : ScheduledLeg) : ResolvedLeg :=
  let fromStop := lookupLastStop stopsData leg.startStop
  let toStop := lookupLastStop stopsData leg.endStop
  let trip :=
    match leg.tripId with
    | some t => if t = "" then none else lookupLastTrip tripsData t
    | none => none
  { fromStop := ⟨leg.startStop, jsOr (fromStop.bind Stop.stop_name) leg.startStop⟩
    toStop := ⟨leg.endStop, jsOr (toStop.bind Stop.stop_name) leg.endStop⟩
    route :=
      match leg.routeShortName with
      | some r => if r = "" then none else some ⟨"", r⟩
      | none => none
    tripHeadsign :=
      match trip with
      | some tr =>
        match tr.trip_headsign with
        | some hd => if hd = "" then none else some hd
        | none => none
      | none => none
    departureTime := secondsToTimeString leg.departureTime
    arrivalTime := secondsToTimeString leg.arrivalTime
    isTransfer := false }

/-- Rebuild one journey (`totalDuration` is rounded to minutes, transfers are
`legs.length - 1` clamped at zero). -/
def resolveJourney (stopsData : List Stop) (tripsData : List Trip)
    (j : ScheduledJourney) : ResolvedJourney :=
  let legs := j.legs.map (resolveLeg stopsData tripsData)
  { departureTime := secondsToTimeString j.departureTime
    arrivalTime := secondsToTimeString j.arrivalTime
    totalDuration := (j.totalDuration + 30) / 60
    transfers := legs.length - 1
    legs := legs }

/-- Conversion of a scored stop into the success-payload shape. -/
def toResolvedWithScore (s : StopWithScore) : ResolvedStopWithScore :=
  ⟨s.stop_id, s.stop_name.getD "", s.matchScore, s.matchedWords⟩

/-- Model of `stops.length > 1 ? stops.slice(1, 4).map(...) : undefined`. -/
def alternativesOf (l : List StopWithScore) : Option (List ResolvedStopWithScore) :=
  if l.length ≤ 1 then none
  else some (((l.drop 1).take 3).map toResolvedWithScore)

/-- The tied-top-score candidates, at most 5, as offered in ambiguity errors. -/
def tiedTopCandidates (stops : List StopWithScore) (topScore : Nat) : List CandidateInfo :=
  ((stops.filter (fun s => s.matchScore == topScore)).take 5).map
    (fun s => ⟨s.stop_id, s.stop_name.getD "", s.matchScore⟩)

/-- Options of `findItineraryByName`. -/
structure ByNameOptions where
  maxTransfers : Option Nat
  journeysCount : Option Nat
deriving DecidableEq, Repr

/-- The fallback element for `startStops[0]` (never used: the source indexes
only after the emptiness checks). -/
def noStop : StopWithScore := ⟨"", none, 0, []⟩

/-- Normalisation of a 5-character `HH:MM` time to `HH:MM:SS`. -/
def normalizeTime (departureTime : String) : String :=
  if departureTime.data.length = 5 then departureTime ++ ":00" else departureTime

/-- Steps 3-19 of `findItineraryByName` (everything after the date/time
validation): search both names, the not-found checks, the ambiguity checks,
the same-stop check, the itinerary computation and the name resolution. -/
def resolveByName {P : Type} (B : Backend P)
    (startName endName date departureTime : String) (options : ByNameOptions) :
    FindItineraryByNameResult :=
  let normalizedTime := normalizeTime departureTime
  let startStops := searchStopsByWords B.getStopsByName startName 10
  let endStops := searchStopsByWords B.getStopsByName endName 10
  if startStops.isEmpty && endStops.isEmpty then
    .error (.bothStopsNotFound
      ("No stops found matching \x27" ++ startName ++ "\x27 (start) or \x27" ++ endName ++ "\x27 (end)")
      startName endName "Verify both stop names and try again with different spellings")
  else if startStops.isEmpty then
    .error (.startStopNotFound ("No stop found matching \x27" ++ startName ++ "\x27")
      startName "Check spelling or try a shorter/different name")
  else if endStops.isEmpty then
    .error (.endStopNotFound ("No stop found matching \x27" ++ endName ++ "\x27")
      endName "Check spelling or try a shorter/different name")
  else
    let startTopScore := (startStops.headD noStop).matchScore
    let startSameScoreCount := (startStops.filter (fun s => s.matchScore == startTopScore)).length
    let startHasExactMatch := startStops.any (fun s => exactNameMatch s startName)
    if 3 ≤ startSameScoreCount ∧ startHasExactMatch = false then
      let candidates := tiedTopCandidates startStops startTopScore
      .error (.ambiguousStart
        ("Multiple stops match \x27" ++ startName ++ "\x27. Please be more specific.")
        startName candidates
        ("Specify which stop: " ++ String.intercalate ", " (candidates.map CandidateInfo.stop_name) ++ "?"))
    else
      let endTopScore := (endStops.headD noStop).matchScore
      let endSameScoreCount := (endStops.filter (fun s => s.matchScore == endTopScore)).length
      let endHasExactMatch := endStops.any (fun s => exactNameMatch s endName)
      if 3 ≤ endSameScoreCount ∧ endHasExactMatch = false then
        let candidates := tiedTopCandidates endStops endTopScore
        .error (.ambiguousEnd
          ("Multiple stops match \x27" ++ endName ++ "\x27. Please be more specific.")
          endName candidates
          ("Specify which stop: " ++ String.intercalate ", " (candidates.map CandidateInfo.stop_name) ++ "?"))
      else
        let selectedStart := startStops.headD noStop
        let selectedEnd := endStops.headD noStop
        if selectedStart.stop_id = selectedEnd.stop_id then
          .error (.sameStartAndEnd
            ("Start and end stops are the same (\x27" ++ jsShow selectedStart.stop_name ++ "\x27)")
            ⟨selectedStart.stop_id, selectedStart.stop_name.getD ""⟩)
        else
          let itineraryResult := findItinerary B selectedStart.stop_id selectedEnd.stop_id date
            normalizedTime ⟨none, some (options.maxTransfers.getD 3), none, some (options.journeysCount.getD 3)⟩
          if itineraryResult.journeys.isEmpty then
            let formattedDate : String :=
              ⟨date.data.take 4⟩ ++ "-" ++ ⟨(date.data.drop 4).take 2⟩ ++ "-" ++ ⟨(date.data.drop 6).take 2⟩
            .error (.noItineraryFound
              ("No transit route found between \x27" ++ jsShow selectedStart.stop_name ++
                "\x27 and \x27" ++ jsShow selectedEnd.stop_name ++ "\x27 on " ++ formattedDate ++
                " at " ++ normalizedTime)
              ⟨selectedStart.stop_id, selectedStart.stop_name.getD ""⟩
              ⟨selectedEnd.stop_id, selectedEnd.stop_name.getD ""⟩
              date normalizedTime
              ["No service running at this time",
               "Stops not connected by transit network",
               "Try a different departure time or date"])
          else
            let stopsData := itineraryStopData B itineraryResult.journeys
            let tripsData := itineraryTripData B itineraryResult.journeys
            .success
              (toResolvedWithScore selectedStart)
              (toResolvedWithScore selectedEnd)
              (itineraryResult.journeys.map (resolveJourney stopsData tripsData))
              (alternativesOf startStops)
              (alternativesOf endStops)

/-- The function `findItineraryByName` from the GTFS worker: shape-validate the date and
the departure time, then hand over to `resolveByName`. -/
def findItineraryByName {P : Type} (B : Backend P)
    (startName endName date departureTime : String) (options : ByNameOptions) :
    FindItineraryByNameResult :=
  if dateShapeOk date = false then
    .error (.invalidDate "Invalid date format" date "YYYYMMDD (e.g., 20251203)")
  else if timeShapeOk departureTime = false then
    .error (.invalidTime "Invalid time format" departureTime "HH:MM:SS (e.g., 14:30:00)")
  else
    resolveByName B startName endName date departureTime options

/-! ## JSON values and serialization (JS `JSON.stringify`) -/

/-- JSON-serialisable JS values (tool inputs, tool results, backend rows). -/
inductive Json where
  | null
  | bool (b : Bool)
  | num (n : Int)
  | str (s : String)
  | arr (xs : List Json)
  | obj (fields : List (String × Json))
deriving Repr

/-- Escaping of special characters inside a JSON string literal. -/
def escapeChars : List Char → List Char
  | [] => []
  | c :: rest =>
    (if c = '"' then ['\\', '"']
     else if c = '\\' then ['\\', '\\']
     else if c = '\n' then ['\\', 'n']
     else [c]) ++ escapeChars rest

/-- A JSON string literal. -/
def jsonQuote (s : String) : String := "\"" ++ (⟨escapeChars s.data⟩ : String) ++ "\""

mutual

/-- Compact serialisation (JS `JSON.stringify(v)`). -/
def Json.compact : Json → String
  | .null => "null"
  | .bool b => if b then "true" else "false"
  | .num n => toString n
  | .str s => jsonQuote s
  | .arr xs => "[" ++ Json.compactArr xs ++ "]"
  | .obj fs => "\x7b" ++ Json.compactObj fs ++ "\x7d"

/-- Comma-joined compact serialisation of array elements. -/
def Json.compactArr : List Json → String
  | [] => ""
  | [x] => Json.compact x
  | x :: y :: rest => Json.compact x ++ "," ++ Json.compactArr (y :: rest)

/-- Comma-joined compact serialisation of object fields. -/
def Json.compactObj : List (String × Json) → String
  | [] => ""
  | [(k, v)] => jsonQuote k ++ ":" ++ Json.compact v
  | (k, v) :: q :: rest => jsonQuote k ++ ":" ++ Json.compact v ++ "," ++ Json.compactObj (q :: rest)

end

mutual

/-- Pretty serialisation with 2-space indentation
(JS `JSON.stringify(v, null, 2)`); `ind` is the current indentation. -/
def Json.prettyAux (ind : String) : Json → String
  | .arr [] => "[]"
  | .arr (x :: xs) => "[\n" ++ Json.prettyArr (ind ++ "  ") (x :: xs) ++ "\n" ++ ind ++ "]"
  | .obj [] => "\x7b\x7d"
  | .obj (f :: fs) => "\x7b\n" ++ Json.prettyObj (ind ++ "  ") (f :: fs) ++ "\n" ++ ind ++ "\x7d"
  | j => Json.compact j

/-- Pretty-printed array elements, one per line. -/
def Json.prettyArr (ind : String) : List Json → String
  | [] => ""
  | [x] => ind ++ Json.prettyAux ind x
  | x :: y :: rest => ind ++ Json.prettyAux ind x ++ ",\n" ++ Json.prettyArr ind (y :: rest)

/-- Pretty-printed object fields, one per line. -/
def Json.prettyObj (ind : String) : List (String × Json) → String
  | [] => ""
  | [(k, v)] => ind ++ jsonQuote k ++ ": " ++ Json.prettyAux ind v
  | (k, v) :: q :: rest =>
    ind ++ jsonQuote k ++ ": " ++ Json.prettyAux ind v ++ ",\n" ++ Json.prettyObj ind (q :: rest)

end

/-- Model of `JSON.stringify(v, null, 2)`. -/
def Json.pretty (j : Json) : String := Json.prettyAux "" j

/-- Model of `JSON.stringify({error: message})`, the error payload shape used by the
tool executor for all converted failures. -/
def errorPayload (message : String) : String :=
  Json.compact (.obj [("error", .str message)])

/-! ## Conversational tool-call loop (`processWithClaude`) -/

/-- A content block of a model message (Anthropic SDK shape). -/
inductive ContentBlock where
  | text (s : String)
  | toolUse (id name : String) (input : Json)
  | toolResult (toolUseId : String) (content : String)

/-- Message content: plain text or a block list (`string | Array<...>`). -/
inductive MessageContent where
  | str (s : String)
  | blocks (bs : List ContentBlock)

/-- Message role. -/
inductive Role where
  | user
  | assistant
deriving DecidableEq

/-- A conversation turn (`MessageParam`). -/
structure Message where
  role : Role
  content : MessageContent

/-- A tool-use block extracted from a response. -/
structure ToolUseBlock where
  id : String
  name : String
  input : Json

/-- A model response (`ClaudeResponse` plus its token usage). -/
structure ClaudeResponse where
  content : List ContentBlock
  stopReason : Option String
  inputTokens : Nat
  outputTokens : Nat

/-- The function `extractTextFromContent`: texts of all text blocks joined by newlines. -/
def extractTextFromContent (content : List ContentBlock) : String :=
  String.intercalate "\n" (content.filterMap fun b =>
    match b with
    | .text s => some s
    | _ => none)

/-- The function `extractToolUseFromContent`: all tool-use blocks, in order. -/
def extractToolUseFromContent (content : List ContentBlock) : List ToolUseBlock :=
  content.filterMap fun b =>
    match b with
    | .toolUse i n inp => some ⟨i, n, inp⟩
    | _ => none

/-- State threaded through the loop: the messages sent to the model
(`currentMessages`), the chat store (`addMessage` appends), the iteration
counter, the final text and the accumulated token counts. -/
structure LoopState where
  currentMessages : List Message
  store : List Message
  iterations : Nat
  finalResponse : String
  totalInputTokens : Nat
  totalOutputTokens : Nat

/-- The aggregated user turn holding one `tool_result` block per `tool_use`
block, in order, each result produced by the executor. -/
def toolResultsMessage (exec : String → Json → String) (tus : List ToolUseBlock) : Message :=
  ⟨.user, .blocks (tus.map fun tu => .toolResult tu.id (exec tu.name tu.input))⟩

/-- The body of `while (iterations < maxIterations)` in `processWithClaude`;
`fuel` is `maxIterations - iterations`.  A response without tool-use blocks
stores the final text and appends the assistant turn to the chat store only
(the source does not push it onto `currentMessages`); a response with
tool-use blocks appends the assistant turn and the aggregated tool-result
turn to both lists and continues. -/
def runLoop (model : List Message → ClaudeResponse) (exec : String → Json → String) :
    Nat → LoopState → LoopState
  | 0, st => st
  | fuel + 1, st =>
    let response := model st.currentMessages
    let st1 : LoopState :=
      { st with
        iterations := st.iterations + 1
        totalInputTokens := st.totalInputTokens + response.inputTokens
        totalOutputTokens := st.totalOutputTokens + response.outputTokens }
    let toolUses := extractToolUseFromContent response.content
    match toolUses with
    | [] =>
      { st1 with
        finalResponse := extractTextFromContent response.content
        store := st1.store ++ [⟨.assistant, .blocks response.content⟩] }
    | _ :: _ =>
      let asst : Message := ⟨.assistant, .blocks response.content⟩
      let results := toolResultsMessage exec toolUses
      runLoop model exec fuel
        { st1 with
          currentMessages := st1.currentMessages ++ [asst, results]
          store := st1.store ++ [asst, results] }

/-- The hard iteration ceiling (`const maxIterations = 10`). -/
def maxIterations : Nat := 10

/-- The function `processWithClaude`: run the loop from the given conversation, then fail
with the runaway error if the iteration counter reached the ceiling,
otherwise return the final response (the source performs the ceiling check
after the loop, regardless of how the loop exited). -/
def processWithClaude (model : List Message → ClaudeResponse)
    (exec : String → Json → String) (conversationMessages : List Message) :
    Except String String × LoopState :=
  let st0 : LoopState := ⟨conversationMessages, conversationMessages, 0, "", 0, 0⟩
  let st := runLoop model exec maxIterations st0
  if maxIterations ≤ st.iterations then (.error "Too many tool call iterations", st)
  else (.ok st.finalResponse, st)

/-! ## Tool executor (`executeTool`) -/

/-- Field access `input.key` on a JS object (`none` models `undefined`). -/
def jsGet (input : Json) (key : String) : Option Json :=
  match input with
  | .obj fields => (fields.find? (fun p => p.fst == key)).map Prod.snd
  | _ => none

/-- JS truthiness of a defined value. -/
def truthyJ : Json → Bool
  | .null => false
  | .bool b => b
  | .num n => n != 0
  | .str s => s != ""
  | .arr _ => true
  | .obj _ => true

/-- JS truthiness of a possibly-undefined value. -/
def truthy : Option Json → Bool
  | none => false
  | some j => truthyJ j

/-- JS `String(v)` coercion. -/
def jsToString : Json → String
  | .null => "null"
  | .bool b => if b then "true" else "false"
  | .num n => toString n
  | .str s => s
  | .arr xs => String.intercalate "," (xs.map fun x =>
      match x with
      | .str s => s
      | .num n => toString n
      | .bool b => if b then "true" else "false"
      | .null => ""
      | _ => "")
  | .obj _ => "[object Object]"

/-- A JS number: `none` models `NaN` (integer-valued numbers only; the tool
inputs relevant here are integers). -/
abbrev JsNum := Option Int

/-- JS `Number(v)` coercion (integer fragment; non-numeric gives `NaN`). -/
def jsToNumber : Json → JsNum
  | .null => some 0
  | .bool b => some (if b then 1 else 0)
  | .num n => some n
  | .str s => if (jsTrim s).data.isEmpty then some 0 else
      match natFromDigits (jsTrim s).data with
      | some n => some (Int.ofNat n)
      | none => none
  | .arr [] => some 0
  | .arr [x] => jsToNumber x
  | .arr (_ :: _ :: _) => none
  | .obj _ => none

/-- Filter values of type `string | string[]`. -/
inductive StrOrArr where
  | str (s : String)
  | arr (xs : List String)
deriving DecidableEq, Repr

/-- The function `toStringOrArray` from the tool executor. -/
def toStringOrArray : Option Json → Option StrOrArr
  | none => none
  | some .null => none
  | some (.arr xs) => some (.arr (xs.map jsToString))
  | some v => some (.str (jsToString v))

/-- JS truthiness of a `string | string[] | undefined` value (an empty
string is falsy, an array — even empty — is truthy). -/
def truthySA : Option StrOrArr → Bool
  | none => false
  | some (.str s) => s != ""
  | some (.arr _) => true

/-- Model of `if (v) filters.f = v` on a `string | string[]` value. -/
def keepSA (v : Option StrOrArr) : Option StrOrArr :=
  if truthySA v then v else none

/-- Model of `if (input.key) filters.f = String(input.key)`. -/
def strIfTruthy (input : Json) (key : String) : Option String :=
  match jsGet input key with
  | some v => if truthyJ v then some (jsToString v) else none
  | none => none

/-- Model of `if (input.key) filters.f = Number(input.key)`. -/
def numIfTruthy (input : Json) (key : String) : Option JsNum :=
  match jsGet input key with
  | some v => if truthyJ v then some (jsToNumber v) else none
  | none => none

/-- Model of `String(input.key || '')`. -/
def strOrEmpty (input : Json) (key : String) : String :=
  match jsGet input key with
  | some v => if truthyJ v then jsToString v else ""
  | none => ""

/-- Filters accepted by the backend `getStops`. -/
structure StopFilters where
  stopId : Option StrOrArr
  stopCode : Option String
  name : Option String
  tripId : Option String
  limit : Option JsNum
deriving Repr

/-- Filters accepted by the backend `getRoutes`. -/
structure RouteFilters where
  routeId : Option StrOrArr
  agencyId : Option StrOrArr
  limit : Option JsNum
deriving Repr

/-- Filters accepted by the backend `getTrips`. -/
structure TripFilters where
  tripId : Option StrOrArr
  routeId : Option StrOrArr
  serviceIds : Option StrOrArr
  directionId : Option JsNum
  limit : Option JsNum
deriving Repr

/-- Filters accepted by the backend `getStopTimes`. -/
structure StopTimeFilters where
  tripId : Option StrOrArr
  stopId : Option StrOrArr
  routeId : Option StrOrArr
  serviceIds : Option StrOrArr
  limit : Option JsNum
deriving Repr

/-- Options forwarded by the `findItinerary`/`findItineraryByName` tool
cases (`!== undefined` checks). -/
structure ExecItinOptions where
  maxTransfers : Option JsNum
  journeysCount : Option JsNum
deriving Repr

/-- The result of `getCurrentDateTime()` (ambient wall clock, external). -/
structure CurrentDateTime where
  date : String
  time : String
  dateYYYYMMDD : String
  dayOfWeek : String
  isoDateTime : String
  timezone : String
deriving Repr

/-- Serialisation of the current date/time record, field order as in the
source object literal. -/
def cdtJson (c : CurrentDateTime) : Json :=
  .obj [("date", .str c.date), ("time", .str c.time),
        ("dateYYYYMMDD", .str c.dateYYYYMMDD), ("dayOfWeek", .str c.dayOfWeek),
        ("isoDateTime", .str c.isoDateTime), ("timezone", .str c.timezone)]

/-- The worker API as seen through Comlink by the executor: each call may
fail (modelled as `Except`), e.g. with `GTFS not initialized`; results are
the JSON-serialisable values the worker returns. -/
structure GtfsApi where
  getStops : StopFilters → Except String Json
  getRoutes : RouteFilters → Except String Json
  getTrips : TripFilters → Except String Json
  getStopTimes : StopTimeFilters → Except String Json
  getActiveServiceIds : String → Except String (List String)
  searchStopsByWords : String → JsNum → Except String Json
  findItinerary : String → String → String → String → ExecItinOptions → Except String Json
  findItineraryByName : String → String → String → String → ExecItinOptions → Except String Json

/-- The tool names the dispatch switch recognises (besides
`getCurrentDateTime`, handled before the switch). -/
def knownToolNames : List String :=
  ["getCurrentDateTime", "getStops", "getRoutes", "getTrips", "getStopTimes",
   "searchStopsByWords", "findItinerary", "findItineraryByName"]

/-- The body of the `try` block of `executeTool`: dispatch on the tool name,
build the filters from the raw input, call the worker (each call a possible
failure) and serialise the result.  Unknown tools and a missing worker
produce `"{error: ...}"` payloads, not failures. -/
def executeToolCore (now : CurrentDateTime) (api : Option GtfsApi)
    (toolName : String) (input : Json) : Except String String :=
  if toolName = "getCurrentDateTime" then
    .ok (Json.pretty (cdtJson now))
  else
    match api with
    | none => .ok (Json.compact (.obj [("error", .str "GTFS not initialized")]))
    | some api =>
      if toolName = "getStops" then do
        let filters : StopFilters :=
          { stopId := keepSA (toStringOrArray (jsGet input "stopId"))
            stopCode := strIfTruthy input "stopCode"
            name := strIfTruthy input "name"
            tripId := strIfTruthy input "tripId"
            limit := numIfTruthy input "limit" }
        let r ← api.getStops filters
        return Json.pretty r
      else if toolName = "getRoutes" then do
        let filters : RouteFilters :=
          { routeId := keepSA (toStringOrArray (jsGet input "routeId"))
            agencyId := keepSA (toStringOrArray (jsGet input "agencyId"))
            limit := numIfTruthy input "limit" }
        let r ← api.getRoutes filters
        return Json.pretty r
      else if toolName = "getTrips" then do
        let serviceIds := toStringOrArray (jsGet input "serviceIds")
        let base : TripFilters :=
          { tripId := keepSA (toStringOrArray (jsGet input "tripId"))
            routeId := keepSA (toStringOrArray (jsGet input "routeId"))
            serviceIds := keepSA serviceIds
            directionId := (jsGet input "directionId").map jsToNumber
            limit := numIfTruthy input "limit" }
        let filters ←
          if truthy (jsGet input "date") ∧ truthySA serviceIds = false then do
            let active ← api.getActiveServiceIds (jsToString ((jsGet input "date").getD .null))
            if 0 < active.length then
              pure { base with serviceIds := some (.arr active) }
            else
              pure base
          else
            pure base
        let r ← api.getTrips filters
        return Json.pretty r
      else if toolName = "getStopTimes" then do
        let serviceIds := toStringOrArray (jsGet input "serviceIds")
        let base : StopTimeFilters :=
          { tripId := keepSA (toStringOrArray (jsGet input "tripId"))
            stopId := keepSA (toStringOrArray (jsGet input "stopId"))
            routeId := keepSA (toStringOrArray (jsGet input "routeId"))
            serviceIds := keepSA serviceIds
            limit := numIfTruthy input "limit" }
        let filters ←
          if truthy (jsGet input "date") ∧ truthySA serviceIds = false then do
            let active ← api.getActiveServiceIds (jsToString ((jsGet input "date").getD .null))
            if 0 < active.length then
              pure { base with serviceIds := some (.arr active) }
            else
              pure base
          else
            pure base
        let r ← api.getStopTimes filters
        return Json.pretty r
      else if toolName = "searchStopsByWords" then do
        let query := strOrEmpty input "query"
        let limit : JsNum :=
          match jsGet input "limit" with
          | some v => if truthyJ v then jsToNumber v else some 20
          | none => some 20
        let r ← api.searchStopsByWords query limit
        return Json.pretty r
      else if toolName = "findItinerary" then do
        let options : ExecItinOptions :=
          { maxTransfers := (jsGet input "maxTransfers").map jsToNumber
            journeysCount := (jsGet input "journeysCount").map jsToNumber }
        let r ← api.findItinerary (strOrEmpty input "startStopId") (strOrEmpty input "endStopId")
          (strOrEmpty input "date") (strOrEmpty input "departureTime") options
        return Json.pretty r
      else if toolName = "findItineraryByName" then do
        let options : ExecItinOptions :=
          { maxTransfers := (jsGet input "maxTransfers").map jsToNumber
            journeysCount := (jsGet input "journeysCount").map jsToNumber }
        let r ← api.findItineraryByName (strOrEmpty input "startName") (strOrEmpty input "endName")
          (strOrEmpty input "date") (strOrEmpty input "departureTime") options
        return Json.pretty r
      else
        .ok (Json.compact (.obj [("error", .str ("Unknown tool: " ++ toolName))]))

/-- The function `executeTool`: the `try`/`catch` wrapper — any failure of the dispatch
body is converted into a serialized `{error: message}` payload, so the
function always returns a string and never propagates a failure. -/
def executeTool (now : CurrentDateTime) (api : Option GtfsApi)
    (toolName : String) (input : Json) : String :=
  match executeToolCore now api toolName input with
  | .ok s => s
  | .error message => errorPayload message

/-! ### Loop lemmas -/

theorem runLoop_iterations_all_tools (model : List Message → ClaudeResponse)
    (exec : String → Json → String)
    (h : ∀ msgs, extractToolUseFromContent (model msgs).content ≠ []) :
    ∀ fuel st, (runLoop model exec fuel st).iterations = st.iterations + fuel := by
  intro fuel
  induction fuel with
  | zero => intro st; simp [runLoop]
  | succ n ih =>
    intro st
    simp only [runLoop]
    cases hc : extractToolUseFromContent (model st.currentMessages).content with
    | nil => exact absurd hc (h _)
    | cons t ts =>
      simp only [ih]
      omega

/-- The appended region of the message list sent to the model: a sequence of
rounds, each an assistant turn holding tool-use blocks immediately followed
by one aggregated user turn holding exactly one `tool_result` per `tool_use`,
with matching correlation ids, in the same order. -/
inductive ToolRoundBlocks (exec : String → Json → String) : List Message → Prop where
  | nil : ToolRoundBlocks exec []
  | round (content : List ContentBlock) (rest : List Message)
      (hne : extractToolUseFromContent content ≠ [])
      (h : ToolRoundBlocks exec rest) :
      ToolRoundBlocks exec
        (Message.mk .assistant (.blocks content) ::
          toolResultsMessage exec (extractToolUseFromContent content) :: rest)

theorem runLoop_currentMessages_shape (model : List Message → ClaudeResponse)
    (exec : String → Json → String) :
    ∀ fuel st, ∃ tail,
      (runLoop model exec fuel st).currentMessages = st.currentMessages ++ tail ∧
      ToolRoundBlocks exec tail := by
  intro fuel
  induction fuel with
  | zero =>
    intro st
    exact ⟨[], by simp [runLoop], ToolRoundBlocks.nil⟩
  | succ n ih =>
    intro st
    simp only [runLoop]
    cases hc : extractToolUseFromContent (model st.currentMessages).content with
    | nil => exact ⟨[], by simp, ToolRoundBlocks.nil⟩
    | cons t ts =>
      obtain ⟨tail, heq, hblocks⟩ := ih
        { st with
          iterations := st.iterations + 1
          totalInputTokens := st.totalInputTokens + (model st.currentMessages).inputTokens
          totalOutputTokens := st.totalOutputTokens + (model st.currentMessages).outputTokens
          currentMessages := st.currentMessages ++
            [⟨.assistant, .blocks (model st.currentMessages).content⟩,
             toolResultsMessage exec (extractToolUseFromContent (model st.currentMessages).content)]
          store := st.store ++
            [⟨.assistant, .blocks (model st.currentMessages).content⟩,
             toolResultsMessage exec (extractToolUseFromContent (model st.currentMessages).content)] }
      refine ⟨Message.mk .assistant (.blocks (model st.currentMessages).content) ::
        toolResultsMessage exec (extractToolUseFromContent (model st.currentMessages).content) :: tail,
        ?_, ?_⟩
      · rw [hc] at heq ⊢
        simpa [List.append_assoc] using heq
      · exact ToolRoundBlocks.round _ tail (by rw [hc]; simp) hblocks

/-! ### Concrete loop instances -/

/-- A model that requests a tool call on every round. -/
def alwaysToolModel : List Message → ClaudeResponse :=
  fun _ => ⟨[.toolUse "toolu_01" "getStops" (.obj [])], some "tool_use", 1, 1⟩

/-- A tool executor stub returning an empty JSON object. -/
def stubExec : String → Json → String := fun _ _ => Json.compact (.obj [])

/-- A one-message conversation. -/
def demoConversation : List Message := [⟨.user, .str "hello"⟩]

/-- A model that requests a tool call on the first nine rounds of
`demoConversation` (each tool round grows the message list by two) and
answers with plain text on the tenth. -/
def lastRoundTextModel : List Message → ClaudeResponse :=
  fun msgs =>
    if msgs.length < 19 then ⟨[.toolUse "toolu_01" "getStops" (.obj [])], some "tool_use", 1, 1⟩
    else ⟨[.text "the answer"], some "end_turn", 1, 1⟩

/-- C1: a model whose every response carries at least one tool-use block
drives `processWithClaude` into the `TooManyIterations` failure after exactly
the configured ceiling of 10 rounds; the loop never runs further. -/
theorem toolLoop_ceiling_tooManyIterations (model : List Message → ClaudeResponse)
    (exec : String → Json → String) (conv : List Message)
    (h : ∀ msgs, extractToolUseFromContent (model msgs).content ≠ []) :
    (processWithClaude model exec conv).fst = .error "Too many tool call iterations" ∧
    (processWithClaude model exec conv).snd.iterations = maxIterations := by
  have hit := runLoop_iterations_all_tools model exec h maxIterations ⟨conv, conv, 0, "", 0, 0⟩
  simp only [processWithClaude]
  simp [hit]

/-- Witness for C1 at a concrete always-tool-calling model. -/
theorem toolLoop_ceiling_tooManyIterations_witness :
    (processWithClaude alwaysToolModel stubExec demoConversation).fst
      = .error "Too many tool call iterations" ∧
    (processWithClaude alwaysToolModel stubExec demoConversation).snd.iterations
      = maxIterations :=
  toolLoop_ceiling_tooManyIterations alwaysToolModel stubExec demoConversation
    (by intro msgs; simp [alwaysToolModel, extractToolUseFromContent])

/-- C2 (code bug): when the model answers with plain text on round 10 exactly,
the loop still throws `Too many tool call iterations` — the post-loop ceiling
check fires even though the exchange produced a final answer (which is
computed and then discarded). -/
theorem toolLoop_round10_text_still_fails :
    (processWithClaude lastRoundTextModel stubExec demoConversation).fst
      = .error "Too many tool call iterations" ∧
    (processWithClaude lastRoundTextModel stubExec demoConversation).snd.finalResponse
      = "the answer" ∧
    (processWithClaude lastRoundTextModel stubExec demoConversation).snd.iterations = 10 :=
  ⟨rfl, rfl, rfl⟩

/-- C3: the messages the loop adds to the conversation sent to the model form
a sequence of rounds; in each round the assistant turn carrying tool-use
blocks is immediately followed by a single aggregated user turn holding
exactly one `tool_result` per `tool_use`, with the same correlation ids and
in the same order (see `ToolRoundBlocks`). -/
theorem toolLoop_results_correlated (model : List Message → ClaudeResponse)
    (exec : String → Json → String) (conv : List Message) :
    ∃ tail, (processWithClaude model exec conv).snd.currentMessages = conv ++ tail ∧
      ToolRoundBlocks exec tail := by
  obtain ⟨tail, heq, hb⟩ :=
    runLoop_currentMessages_shape model exec maxIterations ⟨conv, conv, 0, "", 0, 0⟩
  refine ⟨tail, ?_, hb⟩
  simp only [processWithClaude]
  split <;> simpa using heq

/-- A wall-clock reading for concrete executor runs. -/
def demoNow : CurrentDateTime :=
  ⟨"2025-12-03", "14:30:00", "20251203", "wednesday", "2025-12-03T14:30:00.000Z", "UTC"⟩

/-- A worker stub whose every call fails with message `boom`. -/
def failingApi : GtfsApi :=
  { getStops := fun _ => .error "boom"
    getRoutes := fun _ => .error "boom"
    getTrips := fun _ => .error "boom"
    getStopTimes := fun _ => .error "boom"
    getActiveServiceIds := fun _ => .error "boom"
    searchStopsByWords := fun _ _ => .error "boom"
    findItinerary := fun _ _ _ _ _ => .error "boom"
    findItineraryByName := fun _ _ _ _ _ => .error "boom" }

/-- C9: `executeTool` always returns a serialized payload — it is a total
function into strings.  An unknown tool name produces the structured
`{error: "Unknown tool: ..."}` payload (when the worker handle is present; a
missing worker produces `{error: "GTFS not initialized"}` for every tool but
`getCurrentDateTime`), and any failure raised by the dispatch body is caught
and converted into the `{error: message}` payload, so no tool failure can
escape to the caller. -/
theorem executeTool_never_throws (now : CurrentDateTime) (api : Option GtfsApi)
    (name : String) (input : Json) :
    (∀ a, api = some a → name ∉ knownToolNames →
      executeTool now api name input
        = Json.compact (.obj [("error", .str ("Unknown tool: " ++ name))])) ∧
    (api = none → name ≠ "getCurrentDateTime" →
      executeTool now api name input
        = Json.compact (.obj [("error", .str "GTFS not initialized")])) ∧
    (∀ m, executeToolCore now api name input = Except.error m →
      executeTool now api name input = errorPayload m) := by
  refine ⟨?_, ?_, ?_⟩
  · intro a ha hn
    subst ha
    simp only [knownToolNames, List.mem_cons, not_or] at hn
    obtain ⟨h1, h2, h3, h4, h5, h6, h7, h8, -⟩ := hn
    simp [executeTool, executeToolCore, h1, h2, h3, h4, h5, h6, h7, h8]
  · intro ha hn
    subst ha
    simp [executeTool, executeToolCore, hn]
  · intro m hm
    simp [executeTool, hm]

/-- Witness for C9: a concrete unknown tool, a concrete failing dispatch, and
a concrete missing worker, each yielding the corresponding error payload. -/
theorem executeTool_never_throws_witness :
    executeTool demoNow (some failingApi) "fooTool" (.obj [])
      = Json.compact (.obj [("error", .str ("Unknown tool: " ++ "fooTool"))]) ∧
    executeTool demoNow (some failingApi) "getStops" (.obj []) = errorPayload "boom" ∧
    executeTool demoNow none "getStops" (.obj [])
      = Json.compact (.obj [("error", .str "GTFS not initialized")]) :=
  ⟨(executeTool_never_throws demoNow (some failingApi) "fooTool" (.obj [])).1 failingApi rfl
      (by decide),
   (executeTool_never_throws demoNow (some failingApi) "getStops" (.obj [])).2.2 "boom" rfl,
   (executeTool_never_throws demoNow none "getStops" (.obj [])).2.1 rfl (by decide)⟩

theorem resolveByName_not_invalid {P : Type} (B : Backend P)
    (startName endName date departureTime : String) (options : ByNameOptions)
    (e : ItinError)
    (hEq : resolveByName B startName endName date departureTime options = .error e) :
    e.errorType ≠ ErrorType.INVALID_DATE_TIME := by
  simp only [resolveByName] at hEq
  repeat' split at hEq
  all_goals cases hEq
  all_goals simp [ItinError.errorType]

/-- C10: the date/time validation of `findItineraryByName` checks shape only.
Any 8-digit date and any `\d\d:\d\d(:\d\d)?` departure time pass validation:
whatever the backend holds, the result is never an `INVALID_DATE_TIME`
rejection. -/
theorem findItineraryByName_validation_shape_only {P : Type} (B : Backend P)
    (startName endName date departureTime : String) (options : ByNameOptions)
    (hd : dateShapeOk date = true) (ht : timeShapeOk departureTime = true) :
    resultErrorType (findItineraryByName B startName endName date departureTime options)
      ≠ some ErrorType.INVALID_DATE_TIME := by
  have hwrap : findItineraryByName B startName endName date departureTime options
      = resolveByName B startName endName date departureTime options := by
    simp [findItineraryByName, hd, ht]
  rw [hwrap]
  cases hres : resolveByName B startName endName date departureTime options with
  | success s ee j a1 a2 => simp [resultErrorType]
  | error ee =>
    have hne := resolveByName_not_invalid B startName endName date departureTime options ee hres
    simpa [resultErrorType] using hne

/-- With shape-valid date and time, `findItineraryByName` is `resolveByName`. -/
theorem findItineraryByName_valid_eq {P : Type} (B : Backend P)
    (startName endName date departureTime : String) (options : ByNameOptions)
    (hd : dateShapeOk date = true) (ht : timeShapeOk departureTime = true) :
    findItineraryByName B startName endName date departureTime options
      = resolveByName B startName endName date departureTime options := by
  simp [findItineraryByName, hd, ht]

/-- The stop id reported as the selected start stop, where the result carries
one (success, same-start-and-end, no-itinerary). -/
def reportedStartId : FindItineraryByNameResult → Option String
  | .success st _ _ _ _ => some st.stop_id
  | .error (.sameStartAndEnd _ st) => some st.stop_id
  | .error (.noItineraryFound _ st _ _ _ _) => some st.stop_id
  | _ => none

/-- The stop id reported as the selected end stop, where the result carries
one. -/
def reportedEndId : FindItineraryByNameResult → Option String
  | .success _ en _ _ _ => some en.stop_id
  | .error (.sameStartAndEnd _ st) => some st.stop_id
  | .error (.noItineraryFound _ _ en _ _ _) => some en.stop_id
  | _ => none

/-- The first leg of the first journey of a success payload. -/
def firstLegOf : FindItineraryByNameResult → Option ResolvedLeg
  | .success _ _ (j :: _) _ _ => j.legs.head?
  | _ => none

/-- Modelled from the spec: the Transit Data Backend partial-name stop lookup
(`getStops {name, limit}` of the external gtfs-sqljs library) — a
case/diacritic-insensitive substring match over the stop table, capped at
`limit` (the library itself is not part of this repository). -/
def substringBackend (stops : List Stop) : String → Nat → List Stop :=
  fun w limit =>
    (stops.filter (fun st =>
      containsSeq (stripAccents (jsToLowerCase (st.stop_name.getD ""))).data w.data)).take limit

/-- Modelled from the spec: a full backend over a fixed stop table, with
id lookups capped at `limit` and a routing collaborator that reports no
paths. -/
def mkBackend (stops : List Stop) : Backend Unit :=
  { getStopsByName := substringBackend stops
    getStopsById := fun ids lim => (stops.filter (fun st => st.stop_id ∈ ids)).take lim
    getTripsById := fun _ _ => []
    findAllPaths := fun _ _ _ _ _ => []
    findScheduledTrips := fun _ _ _ _ _ => [] }

/-- C7: the search result is sorted by match score descending with ties
broken by stop name ascending, and holds at most `limit` stops. -/
theorem searchStops_sorted_and_truncated (g : String → Nat → List Stop)
    (q : String) (limit : Nat) :
    (searchStopsByWords g q limit).length ≤ limit ∧
    (searchStopsByWords g q limit).Pairwise (fun a b =>
      b.matchScore < a.matchScore ∨
        (a.matchScore = b.matchScore ∧
          strLe (a.stop_name.getD "") (b.stop_name.getD "") = true)) := by
  refine ⟨searchStops_length_le g q limit, ?_⟩
  refine (searchStops_pairwise_scoreLE g q limit).imp ?_
  intro a b hab
  unfold scoreLE at hab
  by_cases h : a.matchScore = b.matchScore
  · rw [if_pos h] at hab
    exact Or.inr ⟨h, hab⟩
  · rw [if_neg h] at hab
    exact Or.inl (of_decide_eq_true hab)

/-- C6 (amended): the match score of every returned stop counts word
occurrences, not distinct words — it is the total number of times the stop
appears in the per-word backend lookups, summed over the normalised query
word list with duplicates counted separately. -/
theorem searchStops_score_counts_occurrences (g : String → Nat → List Stop)
    (q : String) (limit : Nat) (s : StopWithScore)
    (h : s ∈ searchStopsByWords g q limit) :
    s.matchScore = ((queryWords q).map (wordHits g s.stop_id)).sum :=
  searchStops_matchScore_eq g q limit s h

/-- A one-stop table whose stop matches the word `aa`. -/
def dupWordStops : List Stop := [⟨"s1", some "aaxx"⟩]

/-- C6 counterexample: for the duplicated query `"aa aa"` the single matching
stop is returned with `matchScore = 2` although only one distinct query word
matched it — the score is not the count of distinct matching words. -/
theorem searchStops_score_not_distinct_counterexample :
    searchStopsByWords (substringBackend dupWordStops) "aa aa" 20
      = [⟨"s1", some "aaxx", 2, ["aa"]⟩] ∧
    (queryWords "aa aa").dedup.countP
      (fun w => decide (0 < wordHits (substringBackend dupWordStops) "s1" w)) = 1 := by
  constructor <;> decide

/-- Witness for the amended C6 at the duplicated-word query. -/
theorem searchStops_score_counts_occurrences_witness :
    (⟨"s1", some "aaxx", 2, ["aa"]⟩ : StopWithScore).matchScore
      = ((queryWords "aa aa").map
          (wordHits (substringBackend dupWordStops) "s1")).sum :=
  searchStops_score_counts_occurrences (substringBackend dupWordStops) "aa aa" 20
    ⟨"s1", some "aaxx", 2, ["aa"]⟩ (by decide)

theorem tiedTopCandidates_length_le (l : List StopWithScore) (n : Nat) :
    (tiedTopCandidates l n).length ≤ 5 := by
  simp only [tiedTopCandidates, List.length_map, List.length_take]
  omega

/-- C4 (amended): an ambiguity error is reported for a side exactly when at
least 3 of that side's candidates share the top match score and none of the
up-to-10 returned candidates of that side — of any score, not only the tied
top-score ones — is an exact case/whitespace-insensitive match to the query;
the error carries up to 5 tied-top candidate names (the end-side check runs
only after the start side has passed its own ambiguity check). -/
theorem ambiguity_reported_without_exact {P : Type} (B : Backend P)
    (startName endName date departureTime : String) (options : ByNameOptions)
    (hd : dateShapeOk date = true) (ht : timeShapeOk departureTime = true)
    (hse : (searchStopsByWords B.getStopsByName startName 10).isEmpty = false)
    (hee : (searchStopsByWords B.getStopsByName endName 10).isEmpty = false) :
    (3 ≤ ((searchStopsByWords B.getStopsByName startName 10).filter
          (fun s => s.matchScore
            == ((searchStopsByWords B.getStopsByName startName 10).headD noStop).matchScore)).length →
      ((searchStopsByWords B.getStopsByName startName 10).any
          (fun s => exactNameMatch s startName)) = false →
      findItineraryByName B startName endName date departureTime options
          = .error (.ambiguousStart
              ("Multiple stops match \x27" ++ startName ++ "\x27. Please be more specific.")
              startName
              (tiedTopCandidates (searchStopsByWords B.getStopsByName startName 10)
                ((searchStopsByWords B.getStopsByName startName 10).headD noStop).matchScore)
              ("Specify which stop: " ++ String.intercalate ", "
                ((tiedTopCandidates (searchStopsByWords B.getStopsByName startName 10)
                  ((searchStopsByWords B.getStopsByName startName 10).headD noStop).matchScore).map
                    CandidateInfo.stop_name) ++ "?"))
        ∧ (tiedTopCandidates (searchStopsByWords B.getStopsByName startName 10)
            ((searchStopsByWords B.getStopsByName startName 10).headD noStop).matchScore).length ≤ 5)
    ∧
    (¬ (3 ≤ ((searchStopsByWords B.getStopsByName startName 10).filter
          (fun s => s.matchScore
            == ((searchStopsByWords B.getStopsByName startName 10).headD noStop).matchScore)).length
        ∧ ((searchStopsByWords B.getStopsByName startName 10).any
            (fun s => exactNameMatch s startName)) = false) →
      3 ≤ ((searchStopsByWords B.getStopsByName endName 10).filter
          (fun s => s.matchScore
            == ((searchStopsByWords B.getStopsByName endName 10).headD noStop).matchScore)).length →
      ((searchStopsByWords B.getStopsByName endName 10).any
          (fun s => exactNameMatch s endName)) = false →
      findItineraryByName B startName endName date departureTime options
          = .error (.ambiguousEnd
              ("Multiple stops match \x27" ++ endName ++ "\x27. Please be more specific.")
              endName
              (tiedTopCandidates (searchStopsByWords B.getStopsByName endName 10)
                ((searchStopsByWords B.getStopsByName endName 10).headD noStop).matchScore)
              ("Specify which stop: " ++ String.intercalate ", "
                ((tiedTopCandidates (searchStopsByWords B.getStopsByName endName 10)
                  ((searchStopsByWords B.getStopsByName endName 10).headD noStop).matchScore).map
                    CandidateInfo.stop_name) ++ "?"))
        ∧ (tiedTopCandidates (searchStopsByWords B.getStopsByName endName 10)
            ((searchStopsByWords B.getStopsByName endName 10).headD noStop).matchScore).length ≤ 5) := by
  have hc1 : ¬ (((searchStopsByWords B.getStopsByName startName 10).isEmpty
      && (searchStopsByWords B.getStopsByName endName 10).isEmpty) = true) := by
    simp [hse]
  have hc2 : ¬ ((searchStopsByWords B.getStopsByName startName 10).isEmpty = true) := by
    simp [hse]
  have hc3 : ¬ ((searchStopsByWords B.getStopsByName endName 10).isEmpty = true) := by
    simp [hee]
  constructor
  · intro h3 hex
    refine ⟨?_, tiedTopCandidates_length_le _ _⟩
    rw [findItineraryByName_valid_eq B startName endName date departureTime options hd ht]
    simp only [resolveByName]
    rw [if_neg hc1, if_neg hc2, if_neg hc3, if_pos ⟨h3, hex⟩]
  · intro hnot h3 hex
    refine ⟨?_, tiedTopCandidates_length_le _ _⟩
    rw [findItineraryByName_valid_eq B startName endName date departureTime options hd ht]
    simp only [resolveByName]
    rw [if_neg hc1, if_neg hc2, if_neg hc3, if_neg hnot, if_pos ⟨h3, hex⟩]

/-- A stop table exercising the per-word lookup cap: 100 stops whose names
contain `aa` precede the stop named exactly `aa bb`, so the word lookup for
`aa` (capped at 100) misses it, while the lookup for `bb` finds it; the three
`aa bb q*` stops are the tied top-score candidates. -/
def capStops : List Stop :=
  [⟨"a1", some "aa bb q1"⟩, ⟨"a2", some "aa bb q2"⟩, ⟨"a3", some "aa bb q3"⟩]
    ++ (List.range 97).map (fun i => ⟨"y" ++ toString i, some ("aa y" ++ toString i)⟩)
    ++ [⟨"x1", some "aa bb"⟩, ⟨"e1", some "cc"⟩]

set_option maxRecDepth 10000

/-- C4 counterexample: for the query `aa bb` against `capStops`, at least 3
candidates share the top match score and none of the tied top-score
candidates is an exact name match, yet the result is `NO_ITINERARY_FOUND` —
not `AMBIGUOUS_START_STOP` — because a lower-scored candidate (the stop named
exactly `aa bb`, which lost a point to the per-word lookup cap) suppresses
the ambiguity check, and the tie is resolved silently. -/
theorem ambiguity_tied_top_counterexample :
    3 ≤ ((searchStopsByWords (mkBackend capStops).getStopsByName "aa bb" 10).filter
        (fun s => s.matchScore
          == ((searchStopsByWords (mkBackend capStops).getStopsByName "aa bb" 10).headD noStop).matchScore)).length ∧
    ((searchStopsByWords (mkBackend capStops).getStopsByName "aa bb" 10).filter
        (fun s => s.matchScore
          == ((searchStopsByWords (mkBackend capStops).getStopsByName "aa bb" 10).headD noStop).matchScore)).all
      (fun s => !(exactNameMatch s "aa bb")) = true ∧
    resultErrorType (findItineraryByName (mkBackend capStops) "aa bb" "cc" "20251203" "14:30:00"
        ⟨none, none⟩)
      = some ErrorType.NO_ITINERARY_FOUND := by
  refine ⟨by decide, by decide, by decide⟩

/-- A stop table with three tied top-score candidates and no exact match for
the query `pp qq`, plus a unique stop for the query `dd`. -/
def triStops : List Stop :=
  [⟨"t1", some "pp qq 1"⟩, ⟨"t2", some "pp qq 2"⟩, ⟨"t3", some "pp qq 3"⟩, ⟨"e1", some "dd"⟩]

/-- Witness for the amended C4 on both sides: the query `pp qq` is ambiguous
as a start name and as an end name. -/
theorem ambiguity_reported_without_exact_witness :
    (findItineraryByName (mkBackend triStops) "pp qq" "dd" "20251203" "14:30:00" ⟨none, none⟩
        = .error (.ambiguousStart
            ("Multiple stops match \x27" ++ "pp qq" ++ "\x27. Please be more specific.")
            "pp qq"
            (tiedTopCandidates (searchStopsByWords (mkBackend triStops).getStopsByName "pp qq" 10)
              ((searchStopsByWords (mkBackend triStops).getStopsByName "pp qq" 10).headD noStop).matchScore)
            ("Specify which stop: " ++ String.intercalate ", "
              ((tiedTopCandidates (searchStopsByWords (mkBackend triStops).getStopsByName "pp qq" 10)
                ((searchStopsByWords (mkBackend triStops).getStopsByName "pp qq" 10).headD noStop).matchScore).map
                  CandidateInfo.stop_name) ++ "?"))
      ∧ (tiedTopCandidates (searchStopsByWords (mkBackend triStops).getStopsByName "pp qq" 10)
          ((searchStopsByWords (mkBackend triStops).getStopsByName "pp qq" 10).headD noStop).matchScore).length ≤ 5)
    ∧
    (findItineraryByName (mkBackend triStops) "dd" "pp qq" "20251203" "14:30:00" ⟨none, none⟩
        = .error (.ambiguousEnd
            ("Multiple stops match \x27" ++ "pp qq" ++ "\x27. Please be more specific.")
            "pp qq"
            (tiedTopCandidates (searchStopsByWords (mkBackend triStops).getStopsByName "pp qq" 10)
              ((searchStopsByWords (mkBackend triStops).getStopsByName "pp qq" 10).headD noStop).matchScore)
            ("Specify which stop: " ++ String.intercalate ", "
              ((tiedTopCandidates (searchStopsByWords (mkBackend triStops).getStopsByName "pp qq" 10)
                ((searchStopsByWords (mkBackend triStops).getStopsByName "pp qq" 10).headD noStop).matchScore).map
                  CandidateInfo.stop_name) ++ "?"))
      ∧ (tiedTopCandidates (searchStopsByWords (mkBackend triStops).getStopsByName "pp qq" 10)
          ((searchStopsByWords (mkBackend triStops).getStopsByName "pp qq" 10).headD noStop).matchScore).length ≤ 5) :=
  ⟨(ambiguity_reported_without_exact (mkBackend triStops) "pp qq" "dd" "20251203" "14:30:00"
      ⟨none, none⟩ (by decide) (by decide) (by decide) (by decide)).1 (by decide) (by decide),
   (ambiguity_reported_without_exact (mkBackend triStops) "dd" "pp qq" "20251203" "14:30:00"
      ⟨none, none⟩ (by decide) (by decide) (by decide) (by decide)).2 (by decide) (by decide) (by decide)⟩

/-- C5 (amended): an exact-name match anywhere among a side's candidates
suppresses that side's ambiguity error, but the tie is then resolved to the
top-ranked candidate (`startStops[0]` / `endStops[0]` in the sort order) —
not necessarily to the exact-match candidate: every result that reports a
selected stop for that side reports the head of that side's candidate
list. -/
theorem exact_match_suppresses_ambiguity_picks_head {P : Type} (B : Backend P)
    (startName endName date departureTime : String) (options : ByNameOptions)
    (hd : dateShapeOk date = true) (ht : timeShapeOk departureTime = true)
    (hse : (searchStopsByWords B.getStopsByName startName 10).isEmpty = false)
    (hee : (searchStopsByWords B.getStopsByName endName 10).isEmpty = false) :
    (((searchStopsByWords B.getStopsByName startName 10).any
        (fun s => exactNameMatch s startName)) = true →
      resultErrorType (findItineraryByName B startName endName date departureTime options)
          ≠ some ErrorType.AMBIGUOUS_START_STOP
        ∧ ∀ id, reportedStartId (findItineraryByName B startName endName date departureTime options)
            = some id →
          id = ((searchStopsByWords B.getStopsByName startName 10).headD noStop).stop_id)
    ∧
    (¬ (3 ≤ ((searchStopsByWords B.getStopsByName startName 10).filter
          (fun s => s.matchScore
            == ((searchStopsByWords B.getStopsByName startName 10).headD noStop).matchScore)).length
        ∧ ((searchStopsByWords B.getStopsByName startName 10).any
            (fun s => exactNameMatch s startName)) = false) →
      ((searchStopsByWords B.getStopsByName endName 10).any
          (fun s => exactNameMatch s endName)) = true →
      resultErrorType (findItineraryByName B startName endName date departureTime options)
          ≠ some ErrorType.AMBIGUOUS_END_STOP
        ∧ ∀ id, reportedEndId (findItineraryByName B startName endName date departureTime options)
            = some id →
          id = ((searchStopsByWords B.getStopsByName endName 10).headD noStop).stop_id) := by
  have hc1 : ¬ (((searchStopsByWords B.getStopsByName startName 10).isEmpty
      && (searchStopsByWords B.getStopsByName endName 10).isEmpty) = true) := by
    simp [hse]
  have hc2 : ¬ ((searchStopsByWords B.getStopsByName startName 10).isEmpty = true) := by
    simp [hse]
  have hc3 : ¬ ((searchStopsByWords B.getStopsByName endName 10).isEmpty = true) := by
    simp [hee]
  rw [findItineraryByName_valid_eq B startName endName date departureTime options hd ht]
  constructor
  · intro hexact
    have hc4 : ¬ (3 ≤ ((searchStopsByWords B.getStopsByName startName 10).filter
        (fun s => s.matchScore
          == ((searchStopsByWords B.getStopsByName startName 10).headD noStop).matchScore)).length
        ∧ ((searchStopsByWords B.getStopsByName startName 10).any
            (fun s => exactNameMatch s startName)) = false) := by
      simp [hexact]
    constructor
    · simp only [resolveByName]
      rw [if_neg hc1, if_neg hc2, if_neg hc3, if_neg hc4]
      repeat' split
      all_goals simp [resultErrorType, ItinError.errorType]
    · intro id hid
      simp only [resolveByName] at hid
      rw [if_neg hc1, if_neg hc2, if_neg hc3, if_neg hc4] at hid
      repeat' split at hid
      all_goals simp_all [reportedStartId, toResolvedWithScore]
  · intro hstartok hexact
    have hc5 : ¬ (3 ≤ ((searchStopsByWords B.getStopsByName endName 10).filter
        (fun s => s.matchScore
          == ((searchStopsByWords B.getStopsByName endName 10).headD noStop).matchScore)).length
        ∧ ((searchStopsByWords B.getStopsByName endName 10).any
            (fun s => exactNameMatch s endName)) = false) := by
      simp [hexact]
    constructor
    · simp only [resolveByName]
      rw [if_neg hc1, if_neg hc2, if_neg hc3, if_neg hstartok, if_neg hc5]
      repeat' split
      all_goals simp [resultErrorType, ItinError.errorType]
    · intro id hid
      simp only [resolveByName] at hid
      rw [if_neg hc1, if_neg hc2, if_neg hc3, if_neg hstartok, if_neg hc5] at hid
      repeat' split at hid
      all_goals simp_all [reportedEndId, toResolvedWithScore]

/-- A table where the query `bb cc` matches two stops with equal top score:
`aa bb cc` (sorts first) and the exact match `bb cc`. -/
def pickStops : List Stop :=
  [⟨"s1", some "aa bb cc"⟩, ⟨"s2", some "bb cc"⟩, ⟨"e1", some "dd"⟩]

/-- C5 counterexample: the exact-match candidate `bb cc` (stop `s2`) is among
the candidates tied at the top score, yet the stop selected for the start
side is `s1` (`aa bb cc`, the tied candidate that sorts first) — the tie is
not resolved to the exact match. -/
theorem exact_match_not_selected_counterexample :
    ((searchStopsByWords (mkBackend pickStops).getStopsByName "bb cc" 10).map
        StopWithScore.stop_id = ["s1", "s2"]) ∧
    (((searchStopsByWords (mkBackend pickStops).getStopsByName "bb cc" 10).filter
        (fun s => s.matchScore
          == ((searchStopsByWords (mkBackend pickStops).getStopsByName "bb cc" 10).headD
                noStop).matchScore)).map StopWithScore.stop_id = ["s1", "s2"]) ∧
    ((searchStopsByWords (mkBackend pickStops).getStopsByName "bb cc" 10).any
        (fun s => exactNameMatch s "bb cc")) = true ∧
    exactNameMatch ((searchStopsByWords (mkBackend pickStops).getStopsByName "bb cc" 10).headD
        noStop) "bb cc" = false ∧
    reportedStartId (findItineraryByName (mkBackend pickStops) "bb cc" "dd" "20251203" "14:30:00"
        ⟨none, none⟩) = some "s1" := by
  refine ⟨by decide, by decide, by decide, by decide, by decide⟩

/-- Witness for the amended C5, on both sides of the `pickStops` instance. -/
theorem exact_match_suppresses_ambiguity_picks_head_witness :
    "s1" = ((searchStopsByWords (mkBackend pickStops).getStopsByName "bb cc" 10).headD
        noStop).stop_id ∧
    "s1" = ((searchStopsByWords (mkBackend pickStops).getStopsByName "bb cc" 10).headD
        noStop).stop_id :=
  ⟨((exact_match_suppresses_ambiguity_picks_head (mkBackend pickStops) "bb cc" "dd" "20251203"
      "14:30:00" ⟨none, none⟩ (by decide) (by decide) (by decide) (by decide)).1
        (by decide)).2 "s1" (by decide),
   ((exact_match_suppresses_ambiguity_picks_head (mkBackend pickStops) "dd" "bb cc" "20251203"
      "14:30:00" ⟨none, none⟩ (by decide) (by decide) (by decide) (by decide)).2
        (by decide) (by decide)).2 "s1" (by decide)⟩

/-- The journeys computed for the selected start/end stops inside a
`findItineraryByName` run (the argument of the success-path name
resolution). -/
def selectedItineraryJourneys {P : Type} (B : Backend P)
    (startName endName date departureTime : String) (options : ByNameOptions) :
    List ScheduledJourney :=
  (findItinerary B
    ((searchStopsByWords B.getStopsByName startName 10).headD noStop).stop_id
    ((searchStopsByWords B.getStopsByName endName 10).headD noStop).stop_id
    date (normalizeTime departureTime)
    ⟨none, some (options.maxTransfers.getD 3), none,
      some (options.journeysCount.getD 3)⟩).journeys

/-- C8 (amended): every successful `findItineraryByName` result carries
journeys rebuilt leg by leg via `resolveLeg` over the data batch-fetched from
the backend for exactly the referenced stop and trip ids; and `resolveLeg`
uses the backend-resolved `stop_name`, `route_short_name` and `tripHeadsign`
whenever the backend resolves them to a non-empty value (the raw-id fallback
is taken only for references the backend fails to resolve). -/
theorem success_legs_resolved {P : Type} (B : Backend P)
    (startName endName date departureTime : String) (options : ByNameOptions)
    (ss es : ResolvedStopWithScore) (js : List ResolvedJourney)
    (a1 a2 : Option (List ResolvedStopWithScore))
    (h : findItineraryByName B startName endName date departureTime options
      = .success ss es js a1 a2) :
    (js = (selectedItineraryJourneys B startName endName date departureTime options).map
        (resolveJourney
          (itineraryStopData B (selectedItineraryJourneys B startName endName date departureTime options))
          (itineraryTripData B (selectedItineraryJourneys B startName endName date departureTime options)))) ∧
    (∀ stopsData tripsData (leg : ScheduledLeg) (st : Stop) (n : String),
      lookupLastStop stopsData leg.startStop = some st → st.stop_name = some n → n ≠ "" →
        (resolveLeg stopsData tripsData leg).fromStop.stop_name = n) ∧
    (∀ stopsData tripsData (leg : ScheduledLeg) (st : Stop) (n : String),
      lookupLastStop stopsData leg.endStop = some st → st.stop_name = some n → n ≠ "" →
        (resolveLeg stopsData tripsData leg).toStop.stop_name = n) ∧
    (∀ stopsData tripsData (leg : ScheduledLeg) (r : String),
      leg.routeShortName = some r → r ≠ "" →
        (resolveLeg stopsData tripsData leg).route = some ⟨"", r⟩) ∧
    (∀ stopsData tripsData (leg : ScheduledLeg) (t : String) (tr : Trip) (hn : String),
      leg.tripId = some t → t ≠ "" → lookupLastTrip tripsData t = some tr →
        tr.trip_headsign = some hn → hn ≠ "" →
        (resolveLeg stopsData tripsData leg).tripHeadsign = some hn) := by
  refine ⟨?_, ?_, ?_, ?_, ?_⟩
  · simp only [findItineraryByName] at h
    split at h
    · cases h
    · split at h
      · cases h
      · simp only [resolveByName] at h
        repeat' split at h
        all_goals cases h
        all_goals simp only [selectedItineraryJourneys]
  · intro stopsData tripsData leg st n hst hn hne
    simp [resolveLeg, hst, hn, jsOr, hne]
  · intro stopsData tripsData leg st n hst hn hne
    simp [resolveLeg, hst, hn, jsOr, hne]
  · intro stopsData tripsData leg r hr hrne
    simp [resolveLeg, hr, hrne]
  · intro stopsData tripsData leg t tr hn htr htne hlook hh hhne
    simp [resolveLeg, htr, htne, hlook, hh, hhne]

/-- Stops for a resolvable two-stop ride. -/
def happyStops : List Stop := [⟨"s1", some "Alpha"⟩, ⟨"s2", some "Beta"⟩]

/-- The trip referenced by the example journey. -/
def happyTrips : List Trip := [⟨"t1", some "City Center"⟩]

/-- One scheduled journey with a single leg from `s1` to `s2`. -/
def happyJourney : ScheduledJourney :=
  ⟨3600, 3900, 300, [⟨"s1", "s2", some "t1", some "R1", 3600, 3900⟩]⟩

/-- Modelled from the spec: a consistent backend — every stop and trip id the
routing collaborator emits resolves to a named row. -/
def happyBackend : Backend Unit :=
  { getStopsByName := substringBackend happyStops
    getStopsById := fun ids lim => (happyStops.filter (fun st => st.stop_id ∈ ids)).take lim
    getTripsById := fun ids lim => (happyTrips.filter (fun t => t.trip_id ∈ ids)).take lim
    findAllPaths := fun _ _ _ _ _ => [[()]]
    findScheduledTrips := fun _ _ _ _ _ => [happyJourney] }

/-- Modelled from the spec: a backend whose batch id lookups resolve nothing
(the spec allows a backend to return fewer rows than requested). -/
def rawIdBackend : Backend Unit :=
  { getStopsByName := substringBackend happyStops
    getStopsById := fun _ _ => []
    getTripsById := fun _ _ => []
    findAllPaths := fun _ _ _ _ _ => [[()]]
    findScheduledTrips := fun _ _ _ _ _ => [happyJourney] }

/-- C8 counterexample: when the batch id lookups resolve nothing, the call
still succeeds and the success body carries the raw internal ids `s1`/`s2` in
the `stop_name` fields of the rebuilt leg (and no headsign despite the leg's
trip id) — raw ids are not always absent from a successful response. -/
theorem success_contains_raw_ids_counterexample :
    resultErrorType (findItineraryByName rawIdBackend "Alpha" "Beta" "20251203" "08:00"
        ⟨none, none⟩) = none ∧
    firstLegOf (findItineraryByName rawIdBackend "Alpha" "Beta" "20251203" "08:00" ⟨none, none⟩)
      = some ⟨⟨"s1", "s1"⟩, ⟨"s2", "s2"⟩, some ⟨"", "R1"⟩, none, "01:00:00", "01:05:00", false⟩ := by
  refine ⟨by decide, by decide⟩

/-- The rebuilt journey of the consistent example run. -/
def happyResolvedJourney : ResolvedJourney :=
  ⟨"01:00:00", "01:05:00", 5, 0,
    [⟨⟨"s1", "Alpha"⟩, ⟨"s2", "Beta"⟩, some ⟨"", "R1"⟩, some "City Center",
      "01:00:00", "01:05:00", false⟩]⟩

/-- Witness for the amended C8 at the consistent backend: the success
journeys are the resolved rebuild of the scheduled journeys, and the example
leg resolves to the backend names. -/
theorem success_legs_resolved_witness :
    [happyResolvedJourney]
      = (selectedItineraryJourneys happyBackend "Alpha" "Beta" "20251203" "08:00" ⟨none, none⟩).map
          (resolveJourney
            (itineraryStopData happyBackend
              (selectedItineraryJourneys happyBackend "Alpha" "Beta" "20251203" "08:00" ⟨none, none⟩))
            (itineraryTripData happyBackend
              (selectedItineraryJourneys happyBackend "Alpha" "Beta" "20251203" "08:00" ⟨none, none⟩))) ∧
    (resolveLeg happyStops happyTrips ⟨"s1", "s2", some "t1", some "R1", 3600, 3900⟩).fromStop.stop_name
      = "Alpha" ∧
    (resolveLeg happyStops happyTrips ⟨"s1", "s2", some "t1", some "R1", 3600, 3900⟩).toStop.stop_name
      = "Beta" ∧
    (resolveLeg happyStops happyTrips ⟨"s1", "s2", some "t1", some "R1", 3600, 3900⟩).route
      = some ⟨"", "R1"⟩ ∧
    (resolveLeg happyStops happyTrips ⟨"s1", "s2", some "t1", some "R1", 3600, 3900⟩).tripHeadsign
      = some "City Center" :=
  have happly := success_legs_resolved happyBackend "Alpha" "Beta" "20251203" "08:00" ⟨none, none⟩
    ⟨"s1", "Alpha", 1, ["alpha"]⟩ ⟨"s2", "Beta", 1, ["beta"]⟩ [happyResolvedJourney] none none
    (by decide)
  ⟨happly.1,
   happly.2.1 happyStops happyTrips ⟨"s1", "s2", some "t1", some "R1", 3600, 3900⟩
     ⟨"s1", some "Alpha"⟩ "Alpha" (by decide) (by decide) (by decide),
   happly.2.2.1 happyStops happyTrips ⟨"s1", "s2", some "t1", some "R1", 3600, 3900⟩
     ⟨"s2", some "Beta"⟩ "Beta" (by decide) (by decide) (by decide),
   happly.2.2.2.1 happyStops happyTrips ⟨"s1", "s2", some "t1", some "R1", 3600, 3900⟩
     "R1" (by decide) (by decide),
   happly.2.2.2.2 happyStops happyTrips ⟨"s1", "s2", some "t1", some "R1", 3600, 3900⟩
     "t1" ⟨"t1", some "City Center"⟩ "City Center" (by decide) (by decide) (by decide)
     (by decide) (by decide)⟩

/-- Witness for C10 at the calendar-invalid but shape-valid inputs
`00000000` / `99:99:99`. -/
theorem findItineraryByName_validation_shape_only_witness :
    resultErrorType (findItineraryByName (mkBackend pickStops) "bb cc" "dd" "00000000" "99:99:99"
        ⟨none, none⟩) ≠ some ErrorType.INVALID_DATE_TIME :=
  findItineraryByName_validation_shape_only (mkBackend pickStops) "bb cc" "dd" "00000000"
    "99:99:99" ⟨none, none⟩ (by decide) (by decide)
